import Mathlib

/-!
# gdic: a process-wide dependency-injection registry

A shallow embedding of the Go package `gdic` (`container.go`, `instances.go`).

* Go values held in an `interface{}` are modelled by `GoAny`: the nil interface, or a
  dynamic type together with its data.  A value of a type parameter `T` is represented by
  its boxed form, so boxing into `interface{}` is the identity and the only operation that
  looks at the type is the type assertion `x.(T)`.
* The module level variable `store` becomes the `store` field of an explicit `World`, which
  is threaded through every operation.  The world also records the factory invocations and
  the lock operations performed so far, so that statements such as "the factory is invoked
  exactly once" can be expressed.
* A Go map is a function into `Option`; the two tables are maps of maps, and a missing
  per-type sub-map (`none`) is distinguished from an empty one (`some (fun _ => none)`).
* A run-time panic is an explicit `Outcome.panic`.
* Concurrent calls of `Resolve` are interleavings of the steps of `stepThread`, one step
  per critical section of the lock and one for the factory invocation.
-/

namespace Gdic

/-! ## Go values and types -/

/-- The part of a Go type descriptor the package looks at: what `reflect` reports as
`PkgPath()` and `Name()`, whether the type is an interface type, its method set (one string
per method, standing for name and signature), and an identity that keeps apart types which
`reflect` names alike. -/
structure GoType where
  pkgPath : String
  name : String
  isInterface : Bool
  methods : List String
  ident : Nat
deriving DecidableEq, Repr

/-- A value of type `interface{}`: the nil interface, or a dynamic type with its data. -/
inductive GoAny where
  | nil
  | dyn (t : GoType) (data : Nat)
deriving DecidableEq, Repr

/-- Interface satisfaction: the method set of `d` contains every method of `i`. -/
def implements (d i : GoType) : Bool :=
  i.methods.all (fun m => d.methods.contains m)

/-- The condition under which the type assertion `x.(T)` succeeds: `x` is not the nil
interface and its dynamic type is identical to `T` (for a non-interface `T`) or implements
`T` (for an interface type `T`). -/
def hasType (T : GoType) : GoAny → Bool
  | .nil => false
  | .dyn t _ => if T.isInterface then implements t T else decide (t = T)

/-- The zero value of `T` (`var instance T`), boxed: the nil interface for an interface
type, otherwise a value of dynamic type `T` with zero data. -/
def zeroValue (T : GoType) : GoAny :=
  if T.isInterface then .nil else .dyn T 0

/-- The run-time panics the package can raise. -/
inductive Panic where
  | typeAssertion
  | nilMapWrite
deriving DecidableEq, Repr

/-- The result of running a Go function: it panics or it returns. -/
inductive Outcome (α : Type) where
  | panic (p : Panic)
  | ret (a : α)
deriving DecidableEq, Repr

/-- The type assertion `x.(T)` in its single-value form, which panics on failure. -/
def typeAssert (T : GoType) (x : GoAny) : Outcome GoAny :=
  if hasType T x then .ret x else .panic .typeAssertion

/-- Modelled from the spec: the error values of the package.  The declarations of
`ErrFactoryNotFound` and `ErrInstanceExist` are not among the source files; the spec lists
them as `FactoryNotFound` and `InstanceAlreadyExists`, next to the construction errors
returned by caller-supplied factories (`other`). -/
inductive GoError where
  | ErrFactoryNotFound
  | ErrInstanceExist
  | other (id : Nat)
deriving DecidableEq, Repr

/-- Modelled from the spec: the factory type `difactory`, whose declaration is not among the
source files: "a function taking zero or more opaque construction options and producing
either a constructed value or an error".  `resolve` asserts the type of the first result,
so that result is an `interface{}`.  A factory is caller code and need not be pure: besides
its arguments it receives the number of factory invocations that happened before.  It is
taken not to call back into the registry. -/
abbrev difactory := List GoAny → Nat → GoAny × Option GoError

/-! ## The container -/

/-- InstanceName is a name of instance for store in the container. -/
abbrev InstanceName := String

/-- The default instance name. -/
def Default : InstanceName := "default"

/-- The operations of `sync.RWMutex` the package calls on `store.Lck`. -/
inductive LockOp where
  | Lock
  | Unlock
  | RLock
  | RUnlock
deriving DecidableEq, Repr

/-- The container stores instances and factories (the lock `Lck` is accounted for by the
`locks` field of `World`). -/
structure container where
  instances : String → Option (InstanceName → Option GoAny)
  factories : String → Option (InstanceName → Option difactory)

/-- One invocation of a stored factory: the table cell it was taken from and the arguments
it was called with. -/
structure Invocation where
  itype : String
  name : InstanceName
  args : List GoAny
deriving DecidableEq, Repr

/-- The state all operations act on: the module level `store`, the factory invocations so
far, and the lock operations so far. -/
structure World where
  store : container
  calls : List Invocation
  locks : List LockOp

/-- The function `init`: both tables are created empty. -/
def init : container :=
  { instances := fun _ => none, factories := fun _ => none }

/-- The world at process start. -/
def World.start : World :=
  { store := init, calls := [], locks := [] }

/-- The map write `m[k] = v`. -/
def mapSet {K V : Type} [DecidableEq K] (m : K → Option V) (k : K) (v : V) : K → Option V :=
  fun k2 => if k2 = k then some v else m k2

/-- The builtin `delete(m, k)`. -/
def mapDelete {K V : Type} [DecidableEq K] (m : K → Option V) (k : K) : K → Option V :=
  fun k2 => if k2 = k then none else m k2

/-- The comma-ok read `m[k][n]` of a map of maps: reading a missing (nil) sub-map finds
nothing. -/
def lookup2 {V : Type} (m : String → Option (InstanceName → Option V)) (k : String)
    (n : InstanceName) : Option V :=
  match m k with
  | none => none
  | some inner => inner n

/-- The statement `if _, ok := store.instances[itype]; !ok { store.instances[itype] = make(...) }`. -/
def ensureSubmap (itype : String) (c : container) : container :=
  match c.instances itype with
  | some _ => c
  | none => { c with instances := mapSet c.instances itype (fun _ => none) }

/-- The statement `store.instances[itype][name] = v`; writing into a missing (nil) sub-map
panics, which is the `none` result. -/
def setInstance (itype : String) (name : InstanceName) (v : GoAny) (c : container) :
    Option container :=
  match c.instances itype with
  | none => none
  | some inner => some { c with instances := mapSet c.instances itype (mapSet inner name v) }

/-- Record lock operations. -/
def withLocks (ops : List LockOp) (w : World) : World :=
  { w with locks := w.locks ++ ops }

/-- GetType returns the T full name (package name + type name). -/
def GetType (T : GoType) : String :=
  T.pkgPath ++ "." ++ T.name

/-! ## Resolution -/

/-- The options of `Resolve`. -/
structure resolveOptions where
  IsSingleton : Bool
  FactoryOptions : List GoAny
deriving DecidableEq, Repr

/-- A resolve option, `func(*resolveOptions)`, as a state transformer. -/
abbrev ResolveOption := resolveOptions → resolveOptions

/-- ResolveWithNoSingleton is a resolve option for resolve instance without singleton. -/
def ResolveWithNoSingleton : ResolveOption :=
  fun o => { o with IsSingleton := false }

/-- WithFactoryOptions is a resolve option for resolve instance with factory options. -/
def WithFactoryOptions (opts : List GoAny) : ResolveOption :=
  fun o => { o with FactoryOptions := opts }

/-- The function `resolve`: look the factory up under a read lock, invoke it outside the
lock, and assert the type of what it built. -/
def resolve (T : GoType) (name : InstanceName) (options : resolveOptions) (w : World) :
    Outcome (GoAny × Option GoError) × World :=
  let itype := GetType T
  let w1 := withLocks [.RLock, .RUnlock] w
  match lookup2 w1.store.factories itype name with
  | none => (.ret (zeroValue T, some .ErrFactoryNotFound), w1)
  | some factory =>
    let r := factory options.FactoryOptions w1.calls.length
    let w2 := { w1 with calls := w1.calls ++ [⟨itype, name, options.FactoryOptions⟩] }
    match r.2 with
    | some err => (.ret (zeroValue T, some err), w2)
    | none =>
      match typeAssert T r.1 with
      | .panic p => (.panic p, w2)
      | .ret v => (.ret (v, none), w2)

/-- The function `resolveSingleton`: create the sub-map of the type if missing, read the
cached instance, and on a miss run `resolve` and cache what it built.  The local variable
`resolvedInstance` is an `interface{}`; both `return` statements assert its type. -/
def resolveSingleton (T : GoType) (name : InstanceName) (options : resolveOptions)
    (w : World) : Outcome (GoAny × Option GoError) × World :=
  let itype := GetType T
  let w1 := withLocks [.Lock, .Unlock] { w with store := ensureSubmap itype w.store }
  let w2 := withLocks [.RLock, .RUnlock] w1
  match lookup2 w2.store.instances itype name with
  | some resolvedInstance =>
    match typeAssert T resolvedInstance with
    | .panic p => (.panic p, w2)
    | .ret v => (.ret (v, none), w2)
  | none =>
    match resolve T name options w2 with
    | (.panic p, w3) => (.panic p, w3)
    | (.ret (resolvedInstance, some err), w3) =>
      match typeAssert T resolvedInstance with
      | .panic p => (.panic p, w3)
      | .ret v => (.ret (v, some err), w3)
    | (.ret (resolvedInstance, none), w3) =>
      match setInstance itype name resolvedInstance w3.store with
      | none => (.panic .nilMapWrite, withLocks [.Lock] w3)
      | some c =>
        let w4 := withLocks [.Lock, .Unlock] { w3 with store := c }
        match typeAssert T resolvedInstance with
        | .panic p => (.panic p, w4)
        | .ret v => (.ret (v, none), w4)

/-- Resolve returns instance of the interface: the options are applied in order to the
default `IsSingleton: true`, then the call goes to `resolveSingleton` or to `resolve`. -/
def Resolve (T : GoType) (name : InstanceName) (options : List ResolveOption) (w : World) :
    Outcome (GoAny × Option GoError) × World :=
  let opts := options.foldl (fun o opt => opt o) { IsSingleton := true, FactoryOptions := [] }
  if opts.IsSingleton then resolveSingleton T name opts w else resolve T name opts w

/-! ## Instances -/

/-- IsInstanceExist checks if instance is exist in the container. -/
def IsInstanceExist (T : GoType) (name : InstanceName) (w : World) : Bool × World :=
  let itype := GetType T
  let w1 := withLocks [.RLock, .RUnlock] w
  match w.store.instances itype with
  | none => (false, w1)
  | some inner => ((inner name).isSome, w1)

/-- AddInstance adds instance to the container. -/
def AddInstance (T : GoType) (name : InstanceName) (inst : GoAny) (w : World) :
    Outcome (Option GoError) × World :=
  let itype := GetType T
  let c1 := ensureSubmap itype w.store
  match lookup2 c1.instances itype name with
  | some _ => (.ret (some .ErrInstanceExist), withLocks [.Lock, .Unlock] { w with store := c1 })
  | none =>
    match setInstance itype name inst c1 with
    | none => (.panic .nilMapWrite, withLocks [.Lock, .Unlock] { w with store := c1 })
    | some c2 => (.ret none, withLocks [.Lock, .Unlock] { w with store := c2 })

/-- ReplaceInstance replaces instance in the container. -/
def ReplaceInstance (T : GoType) (name : InstanceName) (inst : GoAny) (w : World) :
    Outcome Unit × World :=
  let itype := GetType T
  let c1 := ensureSubmap itype w.store
  match setInstance itype name inst c1 with
  | none => (.panic .nilMapWrite, withLocks [.Lock, .Unlock] { w with store := c1 })
  | some c2 => (.ret (), withLocks [.Lock, .Unlock] { w with store := c2 })

/-- DeleteInstance deletes instance from the container.  No statement of it can panic
(`delete` accepts a missing key), so the model returns the next world only. -/
def DeleteInstance (T : GoType) (name : InstanceName) (w : World) : World :=
  let itype := GetType T
  match w.store.instances itype with
  | none => withLocks [.Lock, .Unlock] w
  | some inner =>
    withLocks [.Lock, .Unlock]
      { w with store := { w.store with instances := mapSet w.store.instances itype (mapDelete inner name) } }

/-- Call `Resolve` with the same arguments `k` times in a row; the result is the world after
the last call. -/
def resolveRepeat (T : GoType) (name : InstanceName) (options : List ResolveOption) :
    Nat → World → World
  | 0, w => w
  | k + 1, w => resolveRepeat T name options k (Resolve T name options w).2

/-! ## Example types and states -/

/-- An interface type with one method. -/
def Greeter : GoType :=
  { pkgPath := "example.com/app", name := "Greeter", isInterface := true,
    methods := ["Greet() string"], ident := 1 }

/-- A struct type that implements `Greeter`. -/
def English : GoType :=
  { pkgPath := "example.com/app", name := "English", isInterface := false,
    methods := ["Greet() string"], ident := 2 }

/-- A struct type without methods. -/
def Config : GoType :=
  { pkgPath := "example.com/app", name := "Config", isInterface := false,
    methods := [], ident := 3 }

/-- A factory that fails with a construction error. -/
def failingFactory : difactory :=
  fun _ _ => (.nil, some (.other 7))

/-- A factory that builds a new `English` value on every invocation. -/
def englishFactory : difactory :=
  fun _ n => (.dyn English (n + 1), none)

/-- A factory that builds a `Config` value out of the number of its arguments. -/
def configFactory : difactory :=
  fun args n => (.dyn Config (args.length + n), none)

/-- The world at process start with the factory `f` stored at `(GetType T, name)`. -/
def worldWithFactory (T : GoType) (name : InstanceName) (f : difactory) : World :=
  { World.start with
    store := { init with factories := mapSet init.factories (GetType T) (mapSet (fun _ => none) name f) } }

/-- The pointer type `*English`.  It is not a defined type, so `reflect` reports an empty
`PkgPath()` and an empty `Name()` for it. -/
def PtrEnglish : GoType :=
  { pkgPath := "", name := "", isInterface := false,
    methods := ["Greet() string"], ident := 4 }

/-- The slice type `[]Config`.  It is not a defined type either. -/
def SliceConfig : GoType :=
  { pkgPath := "", name := "", isInterface := false, methods := [], ident := 5 }

/-- The call syntax of the two exported option constructors, by which a caller outside the
package builds a `ResolveOption` (the type `resolveOptions` is not exported). -/
inductive OptionCall where
  | noSingleton
  | withFactoryOptions (opts : List GoAny)
deriving DecidableEq, Repr

/-- The `ResolveOption` an option call evaluates to. -/
def OptionCall.eval : OptionCall → ResolveOption
  | .noSingleton => ResolveWithNoSingleton
  | .withFactoryOptions opts => WithFactoryOptions opts

/-- The arguments an option call hands to the factory, if it is a `WithFactoryOptions`. -/
def OptionCall.factoryArgs : OptionCall → Option (List GoAny)
  | .noSingleton => none
  | .withFactoryOptions opts => some opts

/-- The loop `for _, opt := range options { opt(&opts) }` of `Resolve`, started from the
default options. -/
def applyOptions (options : List ResolveOption) : resolveOptions :=
  options.foldl (fun o opt => opt o) { IsSingleton := true, FactoryOptions := [] }

/-- In the words of the claim: the factory arguments in effect are those of the last
`WithFactoryOptions` of the list, and none when the list has no such option. -/
def lastFactoryOptions (calls : List OptionCall) : List GoAny :=
  ((calls.filterMap OptionCall.factoryArgs).getLast?).getD []

/-- The world at process start with the instance `v` stored at `(GetType T, name)`. -/
def worldWithInstance (T : GoType) (name : InstanceName) (v : GoAny) : World :=
  { World.start with
    store := { init with instances := mapSet init.instances (GetType T) (mapSet (fun _ => none) name v) } }

/-! ## Sequences of calls -/

/-- A call of one of the operations on instances, with its type argument. -/
inductive Op where
  | add (U : GoType) (name : InstanceName) (inst : GoAny)
  | replace (U : GoType) (name : InstanceName) (inst : GoAny)
  | delete (U : GoType) (name : InstanceName)
  | resolve (U : GoType) (name : InstanceName) (options : List ResolveOption)

/-- The world after a call; a caller that recovers from a panic goes on in the world the
panicking call left. -/
def Op.run : Op → World → World
  | .add U name inst, w => (AddInstance U name inst w).2
  | .replace U name inst, w => (ReplaceInstance U name inst w).2
  | .delete U name, w => DeleteInstance U name w
  | .resolve U name options, w => (Resolve U name options w).2

/-- The world after a sequence of calls. -/
def runOps (ops : List Op) (w : World) : World :=
  ops.foldl (fun w op => op.run w) w

/-- Well-typed use of the key of `T` by a call: a value it injects under the key of `T` is a
non-nil value whose dynamic type is `T` or implements `T`.  Calls on types with another key
are not restricted. -/
def Op.wellTyped (T : GoType) : Op → Bool
  | .add U _ inst => !(GetType U == GetType T) || hasType T inst
  | .replace U _ inst => !(GetType U == GetType T) || hasType T inst
  | .delete _ _ => true
  | .resolve _ _ _ => true

/-- Well-typed factories for `T`: what a factory stored under the key of `T` returns on
success is a non-nil value whose dynamic type is `T` or implements `T`. -/
def factoriesWellTyped (T : GoType)
    (factories : String → Option (InstanceName → Option difactory)) : Prop :=
  ∀ (n : InstanceName) (f : difactory), lookup2 factories (GetType T) n = some f →
    ∀ (args : List GoAny) (k : Nat), (f args k).2 = none → hasType T (f args k).1 = true

/-- Every instance stored under the key of `T` passes the type assertion to `T`. -/
def instancesWellTyped (T : GoType) (c : container) : Prop :=
  ∀ (n : InstanceName) (v : GoAny), lookup2 c.instances (GetType T) n = some v →
    hasType T v = true

/-- The world with an empty instance table and the given factory table. -/
def worldWithFactories (factories : String → Option (InstanceName → Option difactory)) :
    World :=
  { World.start with store := { init with factories := factories } }

/-! ## Concurrent calls of `Resolve`

A call of `resolveSingleton` is a sequence of steps, each of them either one critical
section of `store.Lck` or the invocation of the factory (which runs outside the lock);
what the call does between two steps touches its local variables only.  Concurrent calls
interleave their steps in any order. -/

/-- Where a call of `resolveSingleton` stands between two steps, with the local variables
it still needs. -/
inductive Thread where
  | start
  | ensured
  | missed
  | gotFactory (factory : difactory)
  | built (resolvedInstance : GoAny)
  | done (result : Outcome (GoAny × Option GoError))

/-- One step of a call of `resolveSingleton`:
* `start`: lines 57-61, the sub-map check under the write lock;
* `ensured`: lines 64-66, the read of the cached instance, and on a hit the `return` of
  line 80;
* `missed`: lines 93-95 of `resolve`, the read of the factory, and without a factory the
  `return` of line 98 followed by the one of line 71;
* `gotFactory`: line 102, the invocation of the factory, with the `return` of line 104 and
  71 on an error and the assertion of line 107 otherwise;
* `built`: lines 75-77, the write of the instance, and the `return` of line 80. -/
def stepThread (T : GoType) (name : InstanceName) (options : resolveOptions) :
    Thread → World → Thread × World
  | .start, w =>
    (.ensured, withLocks [.Lock, .Unlock] { w with store := ensureSubmap (GetType T) w.store })
  | .ensured, w =>
    match lookup2 w.store.instances (GetType T) name with
    | some resolvedInstance =>
      match typeAssert T resolvedInstance with
      | .panic p => (.done (.panic p), withLocks [.RLock, .RUnlock] w)
      | .ret v => (.done (.ret (v, none)), withLocks [.RLock, .RUnlock] w)
    | none => (.missed, withLocks [.RLock, .RUnlock] w)
  | .missed, w =>
    match lookup2 w.store.factories (GetType T) name with
    | none =>
      match typeAssert T (zeroValue T) with
      | .panic p => (.done (.panic p), withLocks [.RLock, .RUnlock] w)
      | .ret v => (.done (.ret (v, some .ErrFactoryNotFound)), withLocks [.RLock, .RUnlock] w)
    | some factory => (.gotFactory factory, withLocks [.RLock, .RUnlock] w)
  | .gotFactory factory, w =>
    match (factory options.FactoryOptions w.calls.length).2 with
    | some err =>
      match typeAssert T (zeroValue T) with
      | .panic p =>
        (.done (.panic p),
          { w with calls := w.calls ++ [⟨GetType T, name, options.FactoryOptions⟩] })
      | .ret v =>
        (.done (.ret (v, some err)),
          { w with calls := w.calls ++ [⟨GetType T, name, options.FactoryOptions⟩] })
    | none =>
      match typeAssert T (factory options.FactoryOptions w.calls.length).1 with
      | .panic p =>
        (.done (.panic p),
          { w with calls := w.calls ++ [⟨GetType T, name, options.FactoryOptions⟩] })
      | .ret v =>
        (.built v,
          { w with calls := w.calls ++ [⟨GetType T, name, options.FactoryOptions⟩] })
  | .built resolvedInstance, w =>
    match setInstance (GetType T) name resolvedInstance w.store with
    | none => (.done (.panic .nilMapWrite), withLocks [.Lock] w)
    | some c =>
      match typeAssert T resolvedInstance with
      | .panic p => (.done (.panic p), withLocks [.Lock, .Unlock] { w with store := c })
      | .ret v => (.done (.ret (v, none)), withLocks [.Lock, .Unlock] { w with store := c })
  | .done result, w => (.done result, w)

/-- A call running alone for `k` steps. -/
def runThread (T : GoType) (name : InstanceName) (options : resolveOptions) :
    Nat → Thread × World → Thread × World
  | 0, s => s
  | k + 1, s => runThread T name options k (stepThread T name options s.1 s.2)

/-- The number of steps a call has left at most. -/
def Thread.remaining : Thread → Nat
  | .start => 5
  | .ensured => 4
  | .missed => 3
  | .gotFactory _ => 2
  | .built _ => 1
  | .done _ => 0

/-- The call has not read the instance table yet. -/
def Thread.early : Thread → Bool
  | .start => true
  | .ensured => true
  | _ => false

/-- The call has missed the cache and has not returned yet. -/
def Thread.inFlight : Thread → Bool
  | .missed => true
  | .gotFactory _ => true
  | .built _ => true
  | _ => false

/-- The shared world and the calls in progress; the calls are numbered from 0. -/
structure Pool where
  world : World
  threads : Nat → Thread

/-- The configuration in which every call is about to begin. -/
def Pool.initial (w : World) : Pool :=
  { world := w, threads := fun _ => .start }

/-- Call number `i` of the `n` concurrent calls takes its next step. -/
def stepPool (T : GoType) (name : InstanceName) (options : resolveOptions) (n i : Nat)
    (c : Pool) : Pool :=
  if i < n then
    { world := (stepThread T name options (c.threads i) c.world).2,
      threads := fun j =>
        if j = i then (stepThread T name options (c.threads i) c.world).1 else c.threads j }
  else c

/-- An interleaving: the calls step in the order the schedule lists them. -/
def runSchedule (T : GoType) (name : InstanceName) (options : resolveOptions) (n : Nat)
    (sched : List Nat) (c : Pool) : Pool :=
  sched.foldl (fun c i => stepPool T name options n i c) c

/-- The value `v` was returned by one of the invocations of `f` recorded after the first
`base` entries of the invocation log. -/
def producedBy (f : difactory) (args : List GoAny) (base : Nat) (w : World) (v : GoAny) :
    Prop :=
  ∃ k, base ≤ k ∧ k < w.calls.length ∧ v = (f args k).1

/-- What is known of a call between two steps, in the run of concurrent calls on a cell
with the factory `f`: a call past its first step has made sure the sub-map exists, the
factory it read is `f`, what it built was produced by `f`, and what it returned is a value
produced by `f`, with a nil error. -/
def threadOk (T : GoType) (f : difactory) (args : List GoAny) (base : Nat) (w : World) :
    Thread → Prop
  | .start => True
  | .ensured => (w.store.instances (GetType T)).isSome = true
  | .missed => (w.store.instances (GetType T)).isSome = true
  | .gotFactory g => g = f ∧ (w.store.instances (GetType T)).isSome = true
  | .built v => producedBy f args base w v ∧ (w.store.instances (GetType T)).isSome = true
  | .done r => ∃ v, r = .ret (v, none) ∧ producedBy f args base w v

/-- What holds of the shared world during the run: the factory is still stored, the
invocation log has only grown, by invocations of this factory, and a cached instance was
produced by the factory. -/
def worldOk (T : GoType) (name : InstanceName) (f : difactory) (args : List GoAny)
    (w0 w : World) : Prop :=
  lookup2 w.store.factories (GetType T) name = some f ∧
  (∃ m, w.calls = w0.calls ++ List.replicate m ⟨GetType T, name, args⟩) ∧
  (∀ v, lookup2 w.store.instances (GetType T) name = some v →
    producedBy f args w0.calls.length w v)

/-- The invariant of a run of `n` concurrent calls on a cell with the factory `f` that
started in the world `w0`: the world and every call are as described above, and once a
call has read the instance table, a call is on its way to cache an instance or an instance
is cached. -/
def poolOk (T : GoType) (name : InstanceName) (f : difactory) (args : List GoAny) (n : Nat)
    (w0 : World) (c : Pool) : Prop :=
  worldOk T name f args w0 c.world ∧
  (∀ i, i < n → threadOk T f args w0.calls.length c.world (c.threads i)) ∧
  ((∀ i, i < n → (c.threads i).early = true) ∨
    (∃ i, i < n ∧ (c.threads i).inFlight = true) ∨
    (lookup2 c.world.store.instances (GetType T) name).isSome = true)

/-! ## Basic facts -/

@[simp] theorem withLocks_store (ops : List LockOp) (w : World) :
    (withLocks ops w).store = w.store := rfl

@[simp] theorem withLocks_calls (ops : List LockOp) (w : World) :
    (withLocks ops w).calls = w.calls := rfl

@[simp] theorem ensureSubmap_factories (k : String) (c : container) :
    (ensureSubmap k c).factories = c.factories := by
  unfold ensureSubmap
  split <;> rfl

@[simp] theorem lookup2_ensureSubmap (k : String) (c : container) (k2 : String)
    (n : InstanceName) :
    lookup2 (ensureSubmap k c).instances k2 n = lookup2 c.instances k2 n := by
  unfold ensureSubmap
  split
  · rfl
  · rename_i h
    by_cases hk : k2 = k
    · subst hk
      simp [lookup2, mapSet, h]
    · simp [lookup2, mapSet, hk]

theorem ensureSubmap_of_some (k : String) (c : container) (inner : InstanceName → Option GoAny)
    (h : c.instances k = some inner) : ensureSubmap k c = c := by
  unfold ensureSubmap
  simp [h]

theorem ensureSubmap_instances_self (k : String) (c : container) :
    (ensureSubmap k c).instances k = some ((c.instances k).getD (fun _ => none)) := by
  unfold ensureSubmap
  split
  · rename_i inner h
    simp [h]
  · rename_i h
    simp [mapSet, h]

/-- After the sub-map has been ensured, the nested map write cannot panic. -/
theorem setInstance_ensureSubmap (k : String) (n : InstanceName) (v : GoAny) (c : container) :
    setInstance k n v (ensureSubmap k c) =
      some { (ensureSubmap k c) with
        instances := mapSet (ensureSubmap k c).instances k
          (mapSet ((c.instances k).getD (fun _ => none)) n v) } := by
  unfold setInstance
  rw [ensureSubmap_instances_self]

theorem lookup2_mapSet_self {V : Type} (m : String → Option (InstanceName → Option V))
    (k : String) (inner : InstanceName → Option V) (n : InstanceName) :
    lookup2 (mapSet m k inner) k n = inner n := by
  simp [lookup2, mapSet]

/-- The world `resolve` leaves behind has the store it started from. -/
theorem resolve_store (T : GoType) (name : InstanceName) (o : resolveOptions) (w : World) :
    (resolve T name o w).2.store = w.store := by
  unfold resolve
  simp only []
  split
  · rfl
  · split
    · rfl
    · split <;> rfl

theorem resolve_no_factory (T : GoType) (name : InstanceName) (o : resolveOptions) (w : World)
    (h : lookup2 w.store.factories (GetType T) name = none) :
    resolve T name o w =
      (.ret (zeroValue T, some .ErrFactoryNotFound), withLocks [.RLock, .RUnlock] w) := by
  unfold resolve
  simp [h]

theorem resolve_factory_err (T : GoType) (name : InstanceName) (o : resolveOptions) (w : World)
    (f : difactory) (e : GoError)
    (h : lookup2 w.store.factories (GetType T) name = some f)
    (he : (f o.FactoryOptions w.calls.length).2 = some e) :
    resolve T name o w =
      (.ret (zeroValue T, some e),
        { withLocks [.RLock, .RUnlock] w with
          calls := w.calls ++ [⟨GetType T, name, o.FactoryOptions⟩] }) := by
  unfold resolve
  simp [h, he]

theorem resolve_factory_ok (T : GoType) (name : InstanceName) (o : resolveOptions) (w : World)
    (f : difactory) (x : GoAny)
    (h : lookup2 w.store.factories (GetType T) name = some f)
    (hx : f o.FactoryOptions w.calls.length = (x, none))
    (ht : hasType T x = true) :
    resolve T name o w =
      (.ret (x, none),
        { withLocks [.RLock, .RUnlock] w with
          calls := w.calls ++ [⟨GetType T, name, o.FactoryOptions⟩] }) := by
  unfold resolve
  simp [h, hx, typeAssert, ht]

theorem typeAssert_zeroValue_interface (T : GoType) (hT : T.isInterface = true) :
    typeAssert T (zeroValue T) = .panic .typeAssertion := by
  simp [typeAssert, zeroValue, hT, hasType]

theorem typeAssert_zeroValue_concrete (T : GoType) (hT : T.isInterface = false) :
    typeAssert T (zeroValue T) = .ret (zeroValue T) := by
  simp [typeAssert, zeroValue, hT, hasType]

theorem typeAssert_of_hasType (T : GoType) (x : GoAny) (h : hasType T x = true) :
    typeAssert T x = .ret x := by
  simp [typeAssert, h]

/-- The world in which `resolveSingleton` reads the instance table. -/
theorem resolveSingleton_hit (T : GoType) (name : InstanceName) (o : resolveOptions) (w : World)
    (v : GoAny) (h : lookup2 w.store.instances (GetType T) name = some v) :
    resolveSingleton T name o w =
      (match typeAssert T v with
        | .panic p => .panic p
        | .ret x => .ret (x, none),
       withLocks [.RLock, .RUnlock] (withLocks [.Lock, .Unlock] w)) := by
  have hs : ensureSubmap (GetType T) w.store = w.store := by
    unfold lookup2 at h
    split at h
    · cases h
    · rename_i inner hin
      exact ensureSubmap_of_some _ _ inner hin
  unfold resolveSingleton
  simp only [hs, withLocks_store, h]
  split <;> rfl

theorem resolveSingleton_miss_no_factory (T : GoType) (name : InstanceName) (o : resolveOptions)
    (w : World)
    (hi : lookup2 w.store.instances (GetType T) name = none)
    (hf : lookup2 w.store.factories (GetType T) name = none) :
    (resolveSingleton T name o w).1 =
      (match typeAssert T (zeroValue T) with
        | .panic p => .panic p
        | .ret x => .ret (x, some .ErrFactoryNotFound)) ∧
    (resolveSingleton T name o w).2.store = ensureSubmap (GetType T) w.store ∧
    (resolveSingleton T name o w).2.calls = w.calls := by
  unfold resolveSingleton
  simp only [withLocks_store, lookup2_ensureSubmap, hi]
  rw [resolve_no_factory _ _ _ _ (by simpa using hf)]
  simp only []
  split <;> simp

theorem resolveSingleton_miss_factory_err (T : GoType) (name : InstanceName)
    (o : resolveOptions) (w : World) (f : difactory) (e : GoError)
    (hi : lookup2 w.store.instances (GetType T) name = none)
    (hf : lookup2 w.store.factories (GetType T) name = some f)
    (he : (f o.FactoryOptions w.calls.length).2 = some e) :
    (resolveSingleton T name o w).1 =
      (match typeAssert T (zeroValue T) with
        | .panic p => .panic p
        | .ret x => .ret (x, some e)) ∧
    (resolveSingleton T name o w).2.store = ensureSubmap (GetType T) w.store ∧
    (resolveSingleton T name o w).2.calls = w.calls ++ [⟨GetType T, name, o.FactoryOptions⟩] := by
  unfold resolveSingleton
  simp only [withLocks_store, lookup2_ensureSubmap, hi]
  rw [resolve_factory_err _ _ _ _ f e (by simpa using hf) (by simpa using he)]
  simp only []
  split <;> simp

theorem resolveSingleton_miss_factory_ok (T : GoType) (name : InstanceName)
    (o : resolveOptions) (w : World) (f : difactory) (x : GoAny)
    (hi : lookup2 w.store.instances (GetType T) name = none)
    (hf : lookup2 w.store.factories (GetType T) name = some f)
    (hx : f o.FactoryOptions w.calls.length = (x, none))
    (ht : hasType T x = true) :
    (resolveSingleton T name o w).1 = .ret (x, none) ∧
    setInstance (GetType T) name x (ensureSubmap (GetType T) w.store) =
      some (resolveSingleton T name o w).2.store ∧
    (resolveSingleton T name o w).2.calls = w.calls ++ [⟨GetType T, name, o.FactoryOptions⟩] := by
  unfold resolveSingleton
  simp only [withLocks_store, lookup2_ensureSubmap, hi]
  rw [resolve_factory_ok _ _ _ _ f x (by simpa using hf) (by simpa using hx) ht]
  simp only [withLocks_store, setInstance_ensureSubmap, typeAssert_of_hasType _ _ ht]
  simp

theorem lookup2_setInstance (k : String) (n : InstanceName) (v : GoAny) (c c2 : container)
    (h : setInstance k n v c = some c2) (k2 : String) (n2 : InstanceName) :
    lookup2 c2.instances k2 n2 =
      if k2 = k ∧ n2 = n then some v else lookup2 c.instances k2 n2 := by
  unfold setInstance at h
  split at h
  · cases h
  · rename_i inner hin
    cases h
    by_cases hk : k2 = k
    · subst hk
      by_cases hn : n2 = n
      · simp [lookup2, mapSet, hn]
      · simp [lookup2, mapSet, hn, hin]
    · simp [lookup2, mapSet, hk]

theorem setInstance_factories (k : String) (n : InstanceName) (v : GoAny) (c c2 : container)
    (h : setInstance k n v c = some c2) : c2.factories = c.factories := by
  unfold setInstance at h
  split at h
  · cases h
  · cases h
    rfl

theorem Resolve_default (T : GoType) (name : InstanceName) (w : World) :
    Resolve T name [] w =
      resolveSingleton T name { IsSingleton := true, FactoryOptions := [] } w := rfl

/-! ## C1 -/

/-- C1, the part the code satisfies: for a type `T` that is not an interface type, `Resolve`
with default options in a state without factory and without instance at `(GetType T, S)`
returns `ErrFactoryNotFound`. -/
theorem resolve_unregistered_concrete (T : GoType) (S : InstanceName) (w : World)
    (hT : T.isInterface = false)
    (hf : lookup2 w.store.factories (GetType T) S = none)
    (hi : lookup2 w.store.instances (GetType T) S = none) :
    (Resolve T S [] w).1 = .ret (zeroValue T, some .ErrFactoryNotFound) := by
  rw [Resolve_default, (resolveSingleton_miss_no_factory T S _ w hi hf).1,
    typeAssert_zeroValue_concrete T hT]

/-- C1 (defect of the code): for an interface type `T`, `Resolve` with default options in a
state without factory and without instance at `(GetType T, S)` does not return
`ErrFactoryNotFound`: the statement `return resolvedInstance.(T), err` of `resolveSingleton`
asserts the type of the nil interface and panics. -/
theorem C1_resolve_unregistered_interface_panics (T : GoType) (S : InstanceName) (w : World)
    (hT : T.isInterface = true)
    (hf : lookup2 w.store.factories (GetType T) S = none)
    (hi : lookup2 w.store.instances (GetType T) S = none) :
    (Resolve T S [] w).1 = .panic .typeAssertion := by
  rw [Resolve_default, (resolveSingleton_miss_no_factory T S _ w hi hf).1,
    typeAssert_zeroValue_interface T hT]

/-- C1 at the interface type `Greeter` in the world at process start. -/
theorem C1_resolve_unregistered_interface_panics_witness :
    Greeter.isInterface = true ∧
    lookup2 World.start.store.factories (GetType Greeter) Default = none ∧
    lookup2 World.start.store.instances (GetType Greeter) Default = none ∧
    (Resolve Greeter Default [] World.start).1 = .panic .typeAssertion :=
  ⟨rfl, rfl, rfl,
    C1_resolve_unregistered_interface_panics Greeter Default World.start rfl rfl rfl⟩

/-! ## C2 -/

/-- C2: with a factory `f` stored at `(GetType T, S)` whose invocation returns a value `x` of
type `T` without error, and no instance at `(GetType T, S)`, two successive calls
`Resolve[T](S)` with default options both return `x` without error, the first call invokes
`f` once (with no arguments) and the second call invokes no factory. -/
theorem C2_singleton_resolves_once (T : GoType) (S : InstanceName) (w : World)
    (f : difactory) (x : GoAny)
    (hf : lookup2 w.store.factories (GetType T) S = some f)
    (hi : lookup2 w.store.instances (GetType T) S = none)
    (hx : f [] w.calls.length = (x, none))
    (ht : hasType T x = true) :
    (Resolve T S [] w).1 = .ret (x, none) ∧
    (Resolve T S [] (Resolve T S [] w).2).1 = .ret (x, none) ∧
    (Resolve T S [] w).2.calls = w.calls ++ [⟨GetType T, S, []⟩] ∧
    (Resolve T S [] (Resolve T S [] w).2).2.calls = (Resolve T S [] w).2.calls := by
  have h1 := resolveSingleton_miss_factory_ok T S
    { IsSingleton := true, FactoryOptions := [] } w f x hi hf hx ht
  have hc : lookup2 (Resolve T S [] w).2.store.instances (GetType T) S = some x := by
    rw [Resolve_default, lookup2_setInstance _ _ _ _ _ h1.2.1]
    simp
  have h2 := resolveSingleton_hit T S { IsSingleton := true, FactoryOptions := [] }
    (Resolve T S [] w).2 x hc
  refine ⟨h1.1, ?_, h1.2.2, ?_⟩
  · rw [Resolve_default T S (Resolve T S [] w).2, h2, typeAssert_of_hasType _ _ ht]
  · rw [Resolve_default T S (Resolve T S [] w).2, h2]
    rfl

/-- C2 at the interface type `Greeter` with a factory building `English` values. -/
theorem C2_singleton_resolves_once_witness :
    (lookup2 (worldWithFactory Greeter Default englishFactory).store.factories
        (GetType Greeter) Default = some englishFactory ∧
      lookup2 (worldWithFactory Greeter Default englishFactory).store.instances
        (GetType Greeter) Default = none ∧
      englishFactory [] (worldWithFactory Greeter Default englishFactory).calls.length
        = (.dyn English 1, none) ∧
      hasType Greeter (.dyn English 1) = true) ∧
    (Resolve Greeter Default [] (worldWithFactory Greeter Default englishFactory)).1
      = .ret (.dyn English 1, none) ∧
    (Resolve Greeter Default []
      (Resolve Greeter Default [] (worldWithFactory Greeter Default englishFactory)).2).1
      = .ret (.dyn English 1, none) ∧
    (Resolve Greeter Default [] (worldWithFactory Greeter Default englishFactory)).2.calls
      = [] ++ [⟨GetType Greeter, Default, []⟩] ∧
    (Resolve Greeter Default []
      (Resolve Greeter Default [] (worldWithFactory Greeter Default englishFactory)).2).2.calls
      = (Resolve Greeter Default [] (worldWithFactory Greeter Default englishFactory)).2.calls :=
  ⟨⟨rfl, rfl, rfl, rfl⟩,
    C2_singleton_resolves_once Greeter Default (worldWithFactory Greeter Default englishFactory)
      englishFactory (.dyn English 1) rfl rfl rfl rfl⟩

theorem Resolve_noSingleton (T : GoType) (name : InstanceName) (args : List GoAny) (w : World) :
    Resolve T name [ResolveWithNoSingleton, WithFactoryOptions args] w =
      resolve T name { IsSingleton := false, FactoryOptions := args } w := rfl

/-- When a factory is stored, `resolve` records exactly one invocation of it, whatever the
factory returns. -/
theorem resolve_calls_of_factory (T : GoType) (name : InstanceName) (o : resolveOptions)
    (w : World) (f : difactory)
    (h : lookup2 w.store.factories (GetType T) name = some f) :
    (resolve T name o w).2.calls = w.calls ++ [⟨GetType T, name, o.FactoryOptions⟩] := by
  unfold resolve
  simp only [withLocks_store, h]
  split
  · rfl
  · split <;> rfl

/-! ## C3 -/

/-- C3: `Resolve[T](S, ResolveWithNoSingleton(), WithFactoryOptions(args...))` with a factory
`f` stored at `(GetType T, S)` invokes `f` exactly once, with exactly `args`, and returns
what `f` produced: the error of `f`, or the value of `f` when that is a value of type `T`;
`k` such calls invoke `f` `k` times.  Without a factory at `(GetType T, S)` the call returns
`ErrFactoryNotFound` and invokes nothing, whatever the instance table holds. -/
theorem C3_non_singleton_resolve (T : GoType) (S : InstanceName) (args : List GoAny)
    (w : World) :
    (∀ f : difactory, lookup2 w.store.factories (GetType T) S = some f →
      (Resolve T S [ResolveWithNoSingleton, WithFactoryOptions args] w).2.calls
        = w.calls ++ [⟨GetType T, S, args⟩] ∧
      (∀ e, (f args w.calls.length).2 = some e →
        (Resolve T S [ResolveWithNoSingleton, WithFactoryOptions args] w).1
          = .ret (zeroValue T, some e)) ∧
      (∀ x, f args w.calls.length = (x, none) → hasType T x = true →
        (Resolve T S [ResolveWithNoSingleton, WithFactoryOptions args] w).1
          = .ret (x, none)) ∧
      (∀ k, (resolveRepeat T S [ResolveWithNoSingleton, WithFactoryOptions args] k w).calls
        = w.calls ++ List.replicate k ⟨GetType T, S, args⟩)) ∧
    (lookup2 w.store.factories (GetType T) S = none →
      (Resolve T S [ResolveWithNoSingleton, WithFactoryOptions args] w).1
        = .ret (zeroValue T, some .ErrFactoryNotFound) ∧
      (Resolve T S [ResolveWithNoSingleton, WithFactoryOptions args] w).2.calls = w.calls) := by
  constructor
  · intro f hf
    refine ⟨?_, ?_, ?_, ?_⟩
    · rw [Resolve_noSingleton]
      exact resolve_calls_of_factory T S _ w f hf
    · intro e he
      rw [Resolve_noSingleton, resolve_factory_err T S _ w f e hf he]
    · intro x hx ht
      rw [Resolve_noSingleton, resolve_factory_ok T S _ w f x hf hx ht]
    · intro k
      induction k generalizing w with
      | zero => simp [resolveRepeat]
      | succ k ih =>
        have hs : (Resolve T S [ResolveWithNoSingleton, WithFactoryOptions args] w).2.store
            = w.store := by
          rw [Resolve_noSingleton]
          exact resolve_store T S _ w
        have hc : (Resolve T S [ResolveWithNoSingleton, WithFactoryOptions args] w).2.calls
            = w.calls ++ [⟨GetType T, S, args⟩] := by
          rw [Resolve_noSingleton]
          exact resolve_calls_of_factory T S _ w f hf
        rw [resolveRepeat, ih _ (by rw [hs]; exact hf), hc, List.replicate_succ]
        simp
  · intro hf
    rw [Resolve_noSingleton, resolve_no_factory T S _ w hf]
    exact ⟨rfl, rfl⟩

/-- C3 at the type `Config`: with `configFactory` stored, a call with two arguments returns
the value built from them and three calls invoke the factory three times; in a world with a
cached instance and no factory the call returns `ErrFactoryNotFound`. -/
theorem C3_non_singleton_resolve_witness :
    ((Resolve Config Default
        [ResolveWithNoSingleton, WithFactoryOptions [.dyn Config 1, .dyn Config 2]]
        (worldWithFactory Config Default configFactory)).1 = .ret (.dyn Config 2, none) ∧
      (resolveRepeat Config Default
        [ResolveWithNoSingleton, WithFactoryOptions [.dyn Config 1, .dyn Config 2]] 3
        (worldWithFactory Config Default configFactory)).calls
        = [] ++ List.replicate 3 ⟨GetType Config, Default, [.dyn Config 1, .dyn Config 2]⟩) ∧
    (lookup2 (AddInstance Config Default (.dyn Config 5) World.start).2.store.instances
        (GetType Config) Default = some (.dyn Config 5) ∧
      (Resolve Config Default [ResolveWithNoSingleton, WithFactoryOptions []]
        (AddInstance Config Default (.dyn Config 5) World.start).2).1
        = .ret (zeroValue Config, some .ErrFactoryNotFound)) :=
  ⟨⟨((C3_non_singleton_resolve Config Default [.dyn Config 1, .dyn Config 2]
        (worldWithFactory Config Default configFactory)).1 configFactory rfl).2.2.1
        (.dyn Config 2) rfl rfl,
      ((C3_non_singleton_resolve Config Default [.dyn Config 1, .dyn Config 2]
        (worldWithFactory Config Default configFactory)).1 configFactory rfl).2.2.2 3⟩,
    by decide,
    ((C3_non_singleton_resolve Config Default []
      (AddInstance Config Default (.dyn Config 5) World.start).2).2 rfl).1⟩

/-! ## C4 -/

/-- C4, the part the code satisfies: in non-singleton mode a construction error `e` of the
stored factory is returned as it is, for every type `T`, and the store is left as it was. -/
theorem resolve_construction_error_non_singleton (T : GoType) (S : InstanceName)
    (args : List GoAny) (w : World) (f : difactory) (e : GoError)
    (hf : lookup2 w.store.factories (GetType T) S = some f)
    (he : (f args w.calls.length).2 = some e) :
    (Resolve T S [ResolveWithNoSingleton, WithFactoryOptions args] w).1
      = .ret (zeroValue T, some e) ∧
    (Resolve T S [ResolveWithNoSingleton, WithFactoryOptions args] w).2.store = w.store := by
  rw [Resolve_noSingleton, resolve_factory_err T S _ w f e hf he]
  exact ⟨rfl, rfl⟩

/-- C4, the part the code satisfies: in singleton mode, for a type `T` that is not an
interface type and with no instance cached at `(GetType T, S)`, a construction error `e` of
the stored factory is returned as it is and nothing is cached. -/
theorem resolve_construction_error_concrete (T : GoType) (S : InstanceName) (w : World)
    (f : difactory) (e : GoError)
    (hT : T.isInterface = false)
    (hf : lookup2 w.store.factories (GetType T) S = some f)
    (hi : lookup2 w.store.instances (GetType T) S = none)
    (he : (f [] w.calls.length).2 = some e) :
    (Resolve T S [] w).1 = .ret (zeroValue T, some e) ∧
    (IsInstanceExist T S (Resolve T S [] w).2).1 = false := by
  have h := resolveSingleton_miss_factory_err T S
    { IsSingleton := true, FactoryOptions := [] } w f e hi hf he
  constructor
  · rw [Resolve_default, h.1, typeAssert_zeroValue_concrete T hT]
  · have hl : lookup2 (Resolve T S [] w).2.store.instances (GetType T) S = none := by
      rw [Resolve_default, h.2.1, lookup2_ensureSubmap, hi]
    unfold lookup2 at hl
    unfold IsInstanceExist
    split at hl
    · rename_i hn
      simp [hn]
    · rename_i inner hin
      simp [hin, hl]

/-- C4 (defect of the code): for an interface type `T`, with no instance cached at
`(GetType T, S)` and a stored factory whose invocation returns an error, `Resolve` in
singleton mode does not return that error: `resolve` hands back the zero value of `T`, which
is the nil interface, and `return resolvedInstance.(T), err` panics on it. -/
theorem C4_construction_error_interface_panics (T : GoType) (S : InstanceName) (w : World)
    (f : difactory) (e : GoError)
    (hT : T.isInterface = true)
    (hf : lookup2 w.store.factories (GetType T) S = some f)
    (hi : lookup2 w.store.instances (GetType T) S = none)
    (he : (f [] w.calls.length).2 = some e) :
    (Resolve T S [] w).1 = .panic .typeAssertion := by
  rw [Resolve_default,
    (resolveSingleton_miss_factory_err T S _ w f e hi hf he).1,
    typeAssert_zeroValue_interface T hT]

/-- C4 at the interface type `Greeter` with a factory that fails. -/
theorem C4_construction_error_interface_panics_witness :
    (Greeter.isInterface = true ∧
      lookup2 (worldWithFactory Greeter Default failingFactory).store.factories
        (GetType Greeter) Default = some failingFactory ∧
      lookup2 (worldWithFactory Greeter Default failingFactory).store.instances
        (GetType Greeter) Default = none ∧
      (failingFactory [] (worldWithFactory Greeter Default failingFactory).calls.length).2
        = some (.other 7)) ∧
    (Resolve Greeter Default [] (worldWithFactory Greeter Default failingFactory)).1
      = .panic .typeAssertion :=
  ⟨⟨rfl, rfl, rfl, rfl⟩,
    C4_construction_error_interface_panics Greeter Default
      (worldWithFactory Greeter Default failingFactory) failingFactory (.other 7)
      rfl rfl rfl rfl⟩

/-! ## C5 -/

/-- What `ensureSubmap` can do to a container: nothing, or create the empty sub-map of a
type that had none. -/
theorem ensureSubmap_cases (k : String) (c : container) :
    ensureSubmap k c = c ∨
    (c.instances k = none ∧
      ensureSubmap k c = { c with instances := mapSet c.instances k (fun _ => none) }) := by
  unfold ensureSubmap
  split
  · exact Or.inl rfl
  · rename_i h
    exact Or.inr ⟨h, rfl⟩

/-- When `resolveSingleton` returns an error, the store it leaves is the one it started from
with the sub-map of the type ensured. -/
theorem resolveSingleton_store_of_error (T : GoType) (name : InstanceName)
    (o : resolveOptions) (w : World) (v : GoAny) (e : GoError)
    (h : (resolveSingleton T name o w).1 = .ret (v, some e)) :
    (resolveSingleton T name o w).2.store = ensureSubmap (GetType T) w.store := by
  unfold resolveSingleton at h ⊢
  simp only [withLocks_store] at h ⊢
  split
  · rename_i x hx
    simp only [hx] at h
    split at h <;> simp at h
  · rename_i hx
    simp only [hx] at h
    split
    · rename_i p w3 hr
      simp only [hr] at h
      simp at h
    · rename_i inst err w3 hr
      have hs := resolve_store T name o
        (withLocks [.RLock, .RUnlock]
          (withLocks [.Lock, .Unlock] { w with store := ensureSubmap (GetType T) w.store }))
      rw [hr] at hs
      simp only [withLocks_store] at hs
      split <;> exact hs
    · rename_i inst w3 hr
      simp only [hr] at h
      split at h
      · simp at h
      · split at h <;> simp at h

/-- C5, as stated, fails: in the world at process start `Resolve[Config]("default")` returns
the error `ErrFactoryNotFound`, and the instance table afterwards differs from the one
before: it has a (new, empty) sub-map under the key of `Config`. -/
theorem C5_failed_resolve_changes_instance_table :
    (Resolve Config Default [] World.start).1
      = .ret (zeroValue Config, some .ErrFactoryNotFound) ∧
    (Resolve Config Default [] World.start).2.store.instances
      ≠ World.start.store.instances := by
  refine ⟨by decide, ?_⟩
  intro h
  have h2 := congrFun h (GetType Config)
  have h3 : ((Resolve Config Default [] World.start).2.store.instances (GetType Config)).isSome
      = (World.start.store.instances (GetType Config)).isSome := by rw [h2]
  revert h3
  decide

/-- C5 as amended: when `Resolve[T](S, options...)` returns an error, the factory table is
the one before the call, and the instance table is the one before the call except that an
empty sub-map for `GetType T` has been created if there was none; no entry `(key, slot)` of
the instance table is added, removed or changed. -/
theorem C5_failed_resolve_frame (T : GoType) (S : InstanceName) (options : List ResolveOption)
    (w : World) (v : GoAny) (e : GoError)
    (h : (Resolve T S options w).1 = .ret (v, some e)) :
    (Resolve T S options w).2.store.factories = w.store.factories ∧
    ((Resolve T S options w).2.store.instances = w.store.instances ∨
      (w.store.instances (GetType T) = none ∧
        (Resolve T S options w).2.store.instances
          = mapSet w.store.instances (GetType T) (fun _ => none))) ∧
    (∀ k n, lookup2 (Resolve T S options w).2.store.instances k n
      = lookup2 w.store.instances k n) := by
  have key : (Resolve T S options w).2.store = w.store ∨
      (Resolve T S options w).2.store = ensureSubmap (GetType T) w.store := by
    unfold Resolve at h ⊢
    simp only [] at h ⊢
    split
    · rename_i hs
      rw [if_pos hs] at h
      exact Or.inr (resolveSingleton_store_of_error T S _ w v e h)
    · exact Or.inl (resolve_store T S _ w)
  rcases key with hk | hk
  · rw [hk]
    exact ⟨rfl, Or.inl rfl, fun _ _ => rfl⟩
  · rw [hk]
    refine ⟨ensureSubmap_factories _ _, ?_, fun k n => lookup2_ensureSubmap _ _ k n⟩
    rcases ensureSubmap_cases (GetType T) w.store with hc | ⟨hn, hc⟩
    · rw [hc]
      exact Or.inl rfl
    · rw [hc]
      exact Or.inr ⟨hn, rfl⟩

/-- C5 as amended, at the failed call of the counterexample. -/
theorem C5_failed_resolve_frame_witness :
    (Resolve Config Default [] World.start).1
      = .ret (zeroValue Config, some .ErrFactoryNotFound) ∧
    (Resolve Config Default [] World.start).2.store.factories = World.start.store.factories ∧
    (∀ k n, lookup2 (Resolve Config Default [] World.start).2.store.instances k n
      = lookup2 World.start.store.instances k n) :=
  ⟨by decide,
    (C5_failed_resolve_frame Config Default [] World.start (zeroValue Config)
      .ErrFactoryNotFound (by decide)).1,
    (C5_failed_resolve_frame Config Default [] World.start (zeroValue Config)
      .ErrFactoryNotFound (by decide)).2.2⟩

/-! ## C6 -/

/-- What `IsInstanceExist` returns is whether the comma-ok read of the instance table
finds an entry. -/
theorem IsInstanceExist_eq_lookup2 (T : GoType) (S : InstanceName) (w : World) :
    (IsInstanceExist T S w).1 = (lookup2 w.store.instances (GetType T) S).isSome := by
  unfold IsInstanceExist lookup2
  split <;> rename_i h <;> simp [h]

/-- C6: when an instance `v` is stored at `(GetType T, S)`, `AddInstance[T](S, v2)` returns
`ErrInstanceExist` and leaves the store (both tables) as it was, so the value stored at
`(GetType T, S)` is still `v`. -/
theorem C6_add_instance_existing (T : GoType) (S : InstanceName) (v v2 : GoAny) (w : World)
    (h : lookup2 w.store.instances (GetType T) S = some v) :
    (AddInstance T S v2 w).1 = .ret (some .ErrInstanceExist) ∧
    (AddInstance T S v2 w).2.store = w.store ∧
    lookup2 (AddInstance T S v2 w).2.store.instances (GetType T) S = some v := by
  have hs : ensureSubmap (GetType T) w.store = w.store := by
    unfold lookup2 at h
    split at h
    · cases h
    · rename_i inner hin
      exact ensureSubmap_of_some _ _ inner hin
  unfold AddInstance
  simp [hs, h]

/-- C6 at the type `Config`: a second `AddInstance` after a first one. -/
theorem C6_add_instance_existing_witness :
    lookup2 (AddInstance Config Default (.dyn Config 5) World.start).2.store.instances
      (GetType Config) Default = some (.dyn Config 5) ∧
    (AddInstance Config Default (.dyn Config 6)
      (AddInstance Config Default (.dyn Config 5) World.start).2).1
      = .ret (some .ErrInstanceExist) ∧
    (AddInstance Config Default (.dyn Config 6)
      (AddInstance Config Default (.dyn Config 5) World.start).2).2.store
      = (AddInstance Config Default (.dyn Config 5) World.start).2.store ∧
    lookup2 (AddInstance Config Default (.dyn Config 6)
      (AddInstance Config Default (.dyn Config 5) World.start).2).2.store.instances
      (GetType Config) Default = some (.dyn Config 5) :=
  ⟨by decide,
    C6_add_instance_existing Config Default (.dyn Config 5) (.dyn Config 6)
      (AddInstance Config Default (.dyn Config 5) World.start).2 (by decide)⟩

/-! ## C7 -/

/-- What a successful `AddInstance` does: with no instance at `(GetType T, S)` it returns
nil and the store it leaves is the one with `v` written at `(GetType T, S)`. -/
theorem AddInstance_fresh (T : GoType) (S : InstanceName) (v : GoAny) (w : World)
    (hi : lookup2 w.store.instances (GetType T) S = none) :
    (AddInstance T S v w).1 = .ret none ∧
    setInstance (GetType T) S v (ensureSubmap (GetType T) w.store)
      = some (AddInstance T S v w).2.store ∧
    (AddInstance T S v w).2.calls = w.calls := by
  unfold AddInstance
  simp [hi, setInstance_ensureSubmap]

/-- C7, the part the code satisfies: when no instance is stored at `(GetType T, S)`,
`AddInstance[T](S, v)` with a value `v` that passes the type assertion to `T` (its dynamic
type is `T`, or implements `T`) returns nil; afterwards the instance table holds `v` at
`(GetType T, S)`, `IsInstanceExist[T](S)` is true, and `Resolve[T](S)` with default options
returns `v` without error and without invoking a factory.  Nothing is assumed about the
factory table. -/
theorem add_instance_then_resolve (T : GoType) (S : InstanceName) (v : GoAny) (w : World)
    (hi : lookup2 w.store.instances (GetType T) S = none)
    (hv : hasType T v = true) :
    (AddInstance T S v w).1 = .ret none ∧
    lookup2 (AddInstance T S v w).2.store.instances (GetType T) S = some v ∧
    (IsInstanceExist T S (AddInstance T S v w).2).1 = true ∧
    (Resolve T S [] (AddInstance T S v w).2).1 = .ret (v, none) ∧
    (Resolve T S [] (AddInstance T S v w).2).2.calls = w.calls := by
  have h := AddInstance_fresh T S v w hi
  have hl : lookup2 (AddInstance T S v w).2.store.instances (GetType T) S = some v := by
    rw [lookup2_setInstance _ _ _ _ _ h.2.1]
    simp
  refine ⟨h.1, hl, ?_, ?_, ?_⟩
  · rw [IsInstanceExist_eq_lookup2, hl]
    rfl
  · rw [Resolve_default, resolveSingleton_hit T S _ _ v hl, typeAssert_of_hasType _ _ hv]
  · rw [Resolve_default, resolveSingleton_hit T S _ _ v hl]
    exact h.2.2

/-- C7 (defect of the code): for an interface type `T` and no instance stored at
`(GetType T, S)`, `AddInstance[T](S, v)` with `v` the zero value of `T` (the nil interface,
a value of type `T`) returns nil and the instance table holds `v` at `(GetType T, S)`, so
that `IsInstanceExist[T](S)` is true; but `Resolve[T](S)` with default options does not
return `v`: the entry is found and `return resolvedInstance.(T), nil` panics on the nil
interface.  Nothing is assumed about the factory table. -/
theorem C7_add_nil_then_resolve_panics (T : GoType) (S : InstanceName) (w : World)
    (hT : T.isInterface = true)
    (hi : lookup2 w.store.instances (GetType T) S = none) :
    (AddInstance T S (zeroValue T) w).1 = .ret none ∧
    lookup2 (AddInstance T S (zeroValue T) w).2.store.instances (GetType T) S
      = some (zeroValue T) ∧
    (IsInstanceExist T S (AddInstance T S (zeroValue T) w).2).1 = true ∧
    (Resolve T S [] (AddInstance T S (zeroValue T) w).2).1 = .panic .typeAssertion := by
  have h := AddInstance_fresh T S (zeroValue T) w hi
  have hl : lookup2 (AddInstance T S (zeroValue T) w).2.store.instances (GetType T) S
      = some (zeroValue T) := by
    rw [lookup2_setInstance _ _ _ _ _ h.2.1]
    simp
  refine ⟨h.1, hl, ?_, ?_⟩
  · rw [IsInstanceExist_eq_lookup2, hl]
    rfl
  · rw [Resolve_default, resolveSingleton_hit T S _ _ (zeroValue T) hl,
      typeAssert_zeroValue_interface T hT]

/-- C7 at the interface type `Greeter` in the world at process start: the nil `Greeter` is
added, the entry exists, and `Resolve[Greeter]` panics. -/
theorem C7_add_nil_then_resolve_panics_witness :
    (Greeter.isInterface = true ∧
      zeroValue Greeter = .nil ∧
      lookup2 World.start.store.instances (GetType Greeter) Default = none) ∧
    (AddInstance Greeter Default (zeroValue Greeter) World.start).1 = .ret none ∧
    lookup2 (AddInstance Greeter Default (zeroValue Greeter) World.start).2.store.instances
      (GetType Greeter) Default = some (zeroValue Greeter) ∧
    (IsInstanceExist Greeter Default
      (AddInstance Greeter Default (zeroValue Greeter) World.start).2).1 = true ∧
    (Resolve Greeter Default []
      (AddInstance Greeter Default (zeroValue Greeter) World.start).2).1
      = .panic .typeAssertion :=
  ⟨⟨rfl, rfl, rfl⟩,
    C7_add_nil_then_resolve_panics Greeter Default World.start rfl rfl⟩

/-! ## C8 -/

/-- What `ReplaceInstance` does: it returns, and the store it leaves is the one with `v`
written at `(GetType T, S)`; it invokes no factory. -/
theorem ReplaceInstance_spec (T : GoType) (S : InstanceName) (v : GoAny) (w : World) :
    (ReplaceInstance T S v w).1 = .ret () ∧
    setInstance (GetType T) S v (ensureSubmap (GetType T) w.store)
      = some (ReplaceInstance T S v w).2.store ∧
    (ReplaceInstance T S v w).2.calls = w.calls := by
  unfold ReplaceInstance
  simp [setInstance_ensureSubmap]

theorem lookup2_ReplaceInstance (T : GoType) (S : InstanceName) (v : GoAny) (w : World) :
    lookup2 (ReplaceInstance T S v w).2.store.instances (GetType T) S = some v := by
  rw [lookup2_setInstance _ _ _ _ _ (ReplaceInstance_spec T S v w).2.1]
  simp

/-- C8, the part the code satisfies: `ReplaceInstance[T](S, v)` followed by
`ReplaceInstance[T](S, v2)` both return, and when `v2` passes the type assertion to `T` (its
dynamic type is `T`, or implements `T`) the next `Resolve[T](S)` with default options
returns `v2` with a nil error and invokes no factory. -/
theorem replace_twice_then_resolve (T : GoType) (S : InstanceName) (v v2 : GoAny) (w : World)
    (hv : hasType T v2 = true) :
    (ReplaceInstance T S v w).1 = .ret () ∧
    (ReplaceInstance T S v2 (ReplaceInstance T S v w).2).1 = .ret () ∧
    (Resolve T S [] (ReplaceInstance T S v2 (ReplaceInstance T S v w).2).2).1
      = .ret (v2, none) ∧
    (Resolve T S [] (ReplaceInstance T S v2 (ReplaceInstance T S v w).2).2).2.calls
      = w.calls := by
  refine ⟨(ReplaceInstance_spec T S v w).1, (ReplaceInstance_spec T S v2 _).1, ?_, ?_⟩
  · rw [Resolve_default, resolveSingleton_hit T S _ _ v2 (lookup2_ReplaceInstance T S v2 _),
      typeAssert_of_hasType _ _ hv]
  · rw [Resolve_default, resolveSingleton_hit T S _ _ v2 (lookup2_ReplaceInstance T S v2 _)]
    simp only [withLocks_calls]
    rw [(ReplaceInstance_spec T S v2 _).2.2, (ReplaceInstance_spec T S v w).2.2]

/-- C8 (defect of the code): for an interface type `T`, after `ReplaceInstance[T](S, v)` and
`ReplaceInstance[T](S, v2)` with `v2` the zero value of `T` (the nil interface), both of
which return, `Resolve[T](S)` with default options does not return `v2`: the entry is found
and `return resolvedInstance.(T), nil` panics on the nil interface. -/
theorem C8_replace_with_nil_then_resolve_panics (T : GoType) (S : InstanceName) (v : GoAny)
    (w : World) (hT : T.isInterface = true) :
    (ReplaceInstance T S v w).1 = .ret () ∧
    (ReplaceInstance T S (zeroValue T) (ReplaceInstance T S v w).2).1 = .ret () ∧
    (IsInstanceExist T S
      (ReplaceInstance T S (zeroValue T) (ReplaceInstance T S v w).2).2).1 = true ∧
    (Resolve T S [] (ReplaceInstance T S (zeroValue T) (ReplaceInstance T S v w).2).2).1
      = .panic .typeAssertion := by
  refine ⟨(ReplaceInstance_spec T S v w).1, (ReplaceInstance_spec T S _ _).1, ?_, ?_⟩
  · rw [IsInstanceExist_eq_lookup2, lookup2_ReplaceInstance]
    rfl
  · rw [Resolve_default,
      resolveSingleton_hit T S _ _ (zeroValue T) (lookup2_ReplaceInstance T S _ _),
      typeAssert_zeroValue_interface T hT]

/-- C8 at the interface type `Greeter`: an `English` value replaced by the nil `Greeter`. -/
theorem C8_replace_with_nil_then_resolve_panics_witness :
    Greeter.isInterface = true ∧
    zeroValue Greeter = .nil ∧
    (ReplaceInstance Greeter Default (.dyn English 4) World.start).1 = .ret () ∧
    (ReplaceInstance Greeter Default (zeroValue Greeter)
      (ReplaceInstance Greeter Default (.dyn English 4) World.start).2).1 = .ret () ∧
    (IsInstanceExist Greeter Default
      (ReplaceInstance Greeter Default (zeroValue Greeter)
        (ReplaceInstance Greeter Default (.dyn English 4) World.start).2).2).1 = true ∧
    (Resolve Greeter Default []
      (ReplaceInstance Greeter Default (zeroValue Greeter)
        (ReplaceInstance Greeter Default (.dyn English 4) World.start).2).2).1
      = .panic .typeAssertion :=
  ⟨rfl, rfl,
    C8_replace_with_nil_then_resolve_panics Greeter Default (.dyn English 4) World.start rfl⟩

/-! ## C9 and C10 -/

/-- What `DeleteInstance` does to the instance table, read entry by entry: the entry at
`(GetType T, S)` is gone, every other entry is as before. -/
theorem lookup2_DeleteInstance (T : GoType) (S : InstanceName) (w : World) (k : String)
    (n : InstanceName) :
    lookup2 (DeleteInstance T S w).store.instances k n =
      if k = GetType T ∧ n = S then none else lookup2 w.store.instances k n := by
  unfold DeleteInstance
  simp only []
  split
  · rename_i hn
    simp only [withLocks_store]
    by_cases hk : k = GetType T
    · subst hk
      simp [lookup2, hn]
    · simp [hk]
  · rename_i inner hin
    simp only [withLocks_store]
    by_cases hk : k = GetType T
    · subst hk
      by_cases h2 : n = S
      · simp [lookup2, mapSet, mapDelete, h2]
      · simp [lookup2, mapSet, mapDelete, h2, hin]
    · simp [lookup2, mapSet, hk]

theorem DeleteInstance_factories (T : GoType) (S : InstanceName) (w : World) :
    (DeleteInstance T S w).store.factories = w.store.factories := by
  unfold DeleteInstance
  simp only []
  split <;> rfl

theorem DeleteInstance_calls (T : GoType) (S : InstanceName) (w : World) :
    (DeleteInstance T S w).calls = w.calls := by
  unfold DeleteInstance
  simp only []
  split <;> rfl

/-- C9: in a state with a factory `f` stored at `(GetType T, S)` whose next invocation
returns a value `x` of type `T`, whatever instance is stored at `(GetType T, S)`: after
`DeleteInstance[T](S)`, `IsInstanceExist[T](S)` is false, and the next `Resolve[T](S)` with
default options invokes `f` exactly once, returns the new result `x` of `f` and caches it. -/
theorem C9_delete_then_resolve (T : GoType) (S : InstanceName) (w : World) (f : difactory)
    (x : GoAny)
    (hf : lookup2 w.store.factories (GetType T) S = some f)
    (hx : f [] w.calls.length = (x, none))
    (ht : hasType T x = true) :
    (IsInstanceExist T S (DeleteInstance T S w)).1 = false ∧
    (Resolve T S [] (DeleteInstance T S w)).1 = .ret (x, none) ∧
    (Resolve T S [] (DeleteInstance T S w)).2.calls = w.calls ++ [⟨GetType T, S, []⟩] ∧
    lookup2 (Resolve T S [] (DeleteInstance T S w)).2.store.instances (GetType T) S
      = some x := by
  have hd : lookup2 (DeleteInstance T S w).store.instances (GetType T) S = none := by
    rw [lookup2_DeleteInstance]
    simp
  have hf2 : lookup2 (DeleteInstance T S w).store.factories (GetType T) S = some f := by
    rw [DeleteInstance_factories]
    exact hf
  have hx2 : f [] (DeleteInstance T S w).calls.length = (x, none) := by
    rw [DeleteInstance_calls]
    exact hx
  have h := resolveSingleton_miss_factory_ok T S
    { IsSingleton := true, FactoryOptions := [] } (DeleteInstance T S w) f x hd hf2 hx2 ht
  refine ⟨?_, h.1, ?_, ?_⟩
  · rw [IsInstanceExist_eq_lookup2, hd]
    rfl
  · rw [Resolve_default, h.2.2, DeleteInstance_calls]
  · rw [Resolve_default, lookup2_setInstance _ _ _ _ _ h.2.1]
    simp

/-- C9 at the interface type `Greeter`: the first `Resolve` caches one `English` value,
`DeleteInstance` removes it, and the next `Resolve` builds and caches another one. -/
theorem C9_delete_then_resolve_witness :
    (lookup2 (Resolve Greeter Default []
        (worldWithFactory Greeter Default englishFactory)).2.store.instances
        (GetType Greeter) Default = some (.dyn English 1) ∧
      hasType Greeter (.dyn English 2) = true) ∧
    (IsInstanceExist Greeter Default (DeleteInstance Greeter Default
      (Resolve Greeter Default [] (worldWithFactory Greeter Default englishFactory)).2)).1
      = false ∧
    (Resolve Greeter Default [] (DeleteInstance Greeter Default
      (Resolve Greeter Default [] (worldWithFactory Greeter Default englishFactory)).2)).1
      = .ret (.dyn English 2, none) ∧
    (Resolve Greeter Default [] (DeleteInstance Greeter Default
      (Resolve Greeter Default [] (worldWithFactory Greeter Default englishFactory)).2)).2.calls
      = [⟨GetType Greeter, Default, []⟩] ++ [⟨GetType Greeter, Default, []⟩] ∧
    lookup2 (Resolve Greeter Default [] (DeleteInstance Greeter Default
      (Resolve Greeter Default []
        (worldWithFactory Greeter Default englishFactory)).2)).2.store.instances
      (GetType Greeter) Default = some (.dyn English 2) :=
  ⟨⟨by decide, rfl⟩,
    C9_delete_then_resolve Greeter Default
      (Resolve Greeter Default [] (worldWithFactory Greeter Default englishFactory)).2
      englishFactory (.dyn English 2) rfl rfl rfl⟩

/-- C10: when no instance is stored at `(GetType T, S)`, whether the sub-map of the type is
missing or is there without an entry for `S`, `DeleteInstance[T](S)` (a total function: it
always completes) leaves the instance table and the factory table exactly as they were. -/
theorem C10_delete_absent_is_noop (T : GoType) (S : InstanceName) (w : World)
    (hi : lookup2 w.store.instances (GetType T) S = none) :
    (DeleteInstance T S w).store.instances = w.store.instances ∧
    (DeleteInstance T S w).store.factories = w.store.factories := by
  refine ⟨?_, DeleteInstance_factories T S w⟩
  unfold DeleteInstance
  simp only []
  split
  · rfl
  · rename_i inner hin
    simp only [withLocks_store]
    have hS : inner S = none := by
      simpa [lookup2, hin] using hi
    funext k
    by_cases hk : k = GetType T
    · subst hk
      simp only [mapSet, if_true, hin]
      congr 1
      funext n
      by_cases hn : n = S
      · simp [mapDelete, hn, hS]
      · simp [mapDelete, hn]
    · simp [mapSet, hk]

/-- C10 in both situations: the sub-map of `Config` is missing (world at process start), and
the sub-map is there with an entry under another name only. -/
theorem C10_delete_absent_is_noop_witness :
    (World.start.store.instances (GetType Config) = none ∧
      (DeleteInstance Config Default World.start).store.instances
        = World.start.store.instances) ∧
    ((lookup2 (AddInstance Config "other" (.dyn Config 5) World.start).2.store.instances
        (GetType Config) "other" = some (.dyn Config 5) ∧
      lookup2 (AddInstance Config "other" (.dyn Config 5) World.start).2.store.instances
        (GetType Config) Default = none) ∧
      (DeleteInstance Config Default
        (AddInstance Config "other" (.dyn Config 5) World.start).2).store.instances
        = (AddInstance Config "other" (.dyn Config 5) World.start).2.store.instances) :=
  ⟨⟨rfl, (C10_delete_absent_is_noop Config Default World.start rfl).1⟩,
    ⟨by decide, by decide⟩,
    (C10_delete_absent_is_noop Config Default
      (AddInstance Config "other" (.dyn Config 5) World.start).2 (by decide)).1⟩

/-! ## C11 -/

/-- In a list, the place of the last occurrence of a separator is determined: two
decompositions around the separator with separator-free tails coincide. -/
theorem append_sep_inj {α : Type} (c : α) :
    ∀ (l1 l2 m1 m2 : List α), c ∉ m1 → c ∉ m2 →
      l1 ++ c :: m1 = l2 ++ c :: m2 → l1 = l2 ∧ m1 = m2 := by
  intro l1
  induction l1 with
  | nil =>
    intro l2 m1 m2 h1 h2 h
    cases l2 with
    | nil =>
      simp at h
      exact ⟨rfl, h⟩
    | cons b l2 =>
      simp at h
      exfalso
      apply h1
      rw [h.2]
      simp
  | cons a l1 ih =>
    intro l2 m1 m2 h1 h2 h
    cases l2 with
    | nil =>
      simp at h
      exfalso
      apply h2
      rw [← h.2]
      simp
    | cons b l2 =>
      simp at h
      obtain ⟨hab, ht⟩ := h
      obtain ⟨hl, hm⟩ := ih l2 m1 m2 h1 h2 ht
      exact ⟨by rw [hab, hl], hm⟩

/-- C11, the part the code satisfies: on types whose `Name()` contains no dot (as the names
of defined, non-generic types), `GetType` determines `PkgPath()` and `Name()`: two such
types with the same key agree on both. -/
theorem GetType_determines_names (A B : GoType)
    (hA : '.' ∉ A.name.data) (hB : '.' ∉ B.name.data)
    (h : GetType A = GetType B) :
    A.pkgPath = B.pkgPath ∧ A.name = B.name := by
  unfold GetType at h
  have hd := congrArg String.data h
  simp only [String.data_append] at hd
  have hd2 : A.pkgPath.data ++ '.' :: A.name.data = B.pkgPath.data ++ '.' :: B.name.data := by
    simpa using hd
  obtain ⟨hp, hn⟩ := append_sep_inj '.' _ _ _ _ hA hB hd2
  exact ⟨String.ext hp, String.ext hn⟩

/-- C11 (defect of the code): `GetType` is not injective.  The pointer type `*English` and
the slice type `[]Config` are distinct types, `reflect` reports an empty `PkgPath()` and an
empty `Name()` for both, and both get the key `"."`; so after `AddInstance[*English]` the
call `AddInstance[[]Config]` on the same slot is refused with `ErrInstanceExist`. -/
theorem C11_GetType_collides_on_unnamed_types :
    PtrEnglish ≠ SliceConfig ∧
    GetType PtrEnglish = "." ∧
    GetType SliceConfig = "." ∧
    (AddInstance SliceConfig Default (.dyn SliceConfig 1)
      (AddInstance PtrEnglish Default (.dyn PtrEnglish 1) World.start).2).1
      = .ret (some .ErrInstanceExist) := by
  decide

/-! ## C12 and C13 -/

/-- C12: `IsInstanceExist[T](S)` returns true exactly when the instance table has an entry
at `(GetType T, S)`, whatever the factory table holds, and it leaves the store (both
tables) as it was. -/
theorem C12_is_instance_exist_reads_instance_table (T : GoType) (S : InstanceName)
    (w : World) :
    ((IsInstanceExist T S w).1 = true ↔
      ∃ v, lookup2 w.store.instances (GetType T) S = some v) ∧
    (IsInstanceExist T S w).2.store = w.store := by
  constructor
  · rw [IsInstanceExist_eq_lookup2, Option.isSome_iff_exists]
  · unfold IsInstanceExist
    simp only []
    split <;> rfl

/-- C13: the non-singleton call `Resolve[T](S, ResolveWithNoSingleton())`, also with factory
arguments, never caches: whatever its outcome (value, error or panic), the store after the
call (instance table and factory table) is the one before the call, and so
`IsInstanceExist[T](S)` has the same value before and after. -/
theorem C13_non_singleton_never_caches (T : GoType) (S : InstanceName) (args : List GoAny)
    (w : World) :
    (Resolve T S [ResolveWithNoSingleton] w).2.store = w.store ∧
    (IsInstanceExist T S (Resolve T S [ResolveWithNoSingleton] w).2).1
      = (IsInstanceExist T S w).1 ∧
    (Resolve T S [ResolveWithNoSingleton, WithFactoryOptions args] w).2.store = w.store := by
  have h1 : (Resolve T S [ResolveWithNoSingleton] w).2.store = w.store :=
    resolve_store T S { IsSingleton := false, FactoryOptions := [] } w
  refine ⟨h1, ?_, ?_⟩
  · rw [IsInstanceExist_eq_lookup2, IsInstanceExist_eq_lookup2, h1]
  · rw [Resolve_noSingleton]
    exact resolve_store T S _ w

/-! ## C15 -/

/-- C15, as stated, fails: with the instance `Config` value 5 cached at the default slot and
an empty lock log, `Resolve[Config]("default")` returns the cached value, and the lock
operations it performs start with `Lock` and `Unlock`: the write lock is taken. -/
theorem C15_cache_hit_takes_write_lock :
    lookup2 (worldWithInstance Config Default (.dyn Config 5)).store.instances
      (GetType Config) Default = some (.dyn Config 5) ∧
    (worldWithInstance Config Default (.dyn Config 5)).locks = [] ∧
    (Resolve Config Default [] (worldWithInstance Config Default (.dyn Config 5))).1
      = .ret (.dyn Config 5, none) ∧
    (Resolve Config Default [] (worldWithInstance Config Default (.dyn Config 5))).2.locks
      = [.Lock, .Unlock, .RLock, .RUnlock] ∧
    LockOp.Lock ∈
      (Resolve Config Default [] (worldWithInstance Config Default (.dyn Config 5))).2.locks := by
  decide

/-- C15 as amended: when an instance `v` of type `T` is stored at `(GetType T, S)`, a
singleton `Resolve[T](S)` returns `v` without invoking a factory and without changing
either table; the lock operations it performs are `Lock`, `Unlock` (the sub-map check that
every call makes first) and then `RLock`, `RUnlock`. -/
theorem C15_cache_hit_path (T : GoType) (S : InstanceName) (w : World) (v : GoAny)
    (hi : lookup2 w.store.instances (GetType T) S = some v)
    (hv : hasType T v = true) :
    (Resolve T S [] w).1 = .ret (v, none) ∧
    (Resolve T S [] w).2.calls = w.calls ∧
    (Resolve T S [] w).2.store = w.store ∧
    (Resolve T S [] w).2.locks = w.locks ++ [.Lock, .Unlock, .RLock, .RUnlock] := by
  rw [Resolve_default, resolveSingleton_hit T S _ w v hi, typeAssert_of_hasType _ _ hv]
  refine ⟨rfl, rfl, rfl, ?_⟩
  simp [withLocks]

/-- C15 as amended, at the cache hit of the counterexample. -/
theorem C15_cache_hit_path_witness :
    (lookup2 (worldWithInstance Config Default (.dyn Config 5)).store.instances
        (GetType Config) Default = some (.dyn Config 5) ∧
      hasType Config (.dyn Config 5) = true) ∧
    (Resolve Config Default [] (worldWithInstance Config Default (.dyn Config 5))).1
      = .ret (.dyn Config 5, none) ∧
    (Resolve Config Default [] (worldWithInstance Config Default (.dyn Config 5))).2.calls
      = (worldWithInstance Config Default (.dyn Config 5)).calls ∧
    (Resolve Config Default [] (worldWithInstance Config Default (.dyn Config 5))).2.store
      = (worldWithInstance Config Default (.dyn Config 5)).store ∧
    (Resolve Config Default [] (worldWithInstance Config Default (.dyn Config 5))).2.locks
      = (worldWithInstance Config Default (.dyn Config 5)).locks
        ++ [.Lock, .Unlock, .RLock, .RUnlock] :=
  ⟨⟨by decide, by decide⟩,
    C15_cache_hit_path Config Default (worldWithInstance Config Default (.dyn Config 5))
      (.dyn Config 5) (by decide) (by decide)⟩

/-! ## C16 -/

theorem Resolve_eq_applyOptions (T : GoType) (name : InstanceName)
    (options : List ResolveOption) (w : World) :
    Resolve T name options w =
      if (applyOptions options).IsSingleton then resolveSingleton T name (applyOptions options) w
      else resolve T name (applyOptions options) w := rfl

theorem getLastD_cons {α : Type} (a d : α) (l : List α) :
    ((a :: l).getLast?).getD d = (l.getLast?).getD a := by
  cases l with
  | nil => rfl
  | cons b l =>
    rw [List.getLast?_cons_cons]
    cases h : (b :: l).getLast? with
    | none => simp at h
    | some x => rfl

/-- The options after the loop, for a list of option calls applied to any starting options:
singleton only if it was so before and no call is `ResolveWithNoSingleton()`, and the
factory arguments of the last `WithFactoryOptions`, or the ones before if there is none. -/
theorem foldl_option_calls (calls : List OptionCall) :
    ∀ o : resolveOptions,
      (calls.map OptionCall.eval).foldl (fun o opt => opt o) o =
        { IsSingleton := o.IsSingleton && !calls.contains .noSingleton,
          FactoryOptions :=
            ((calls.filterMap OptionCall.factoryArgs).getLast?).getD o.FactoryOptions } := by
  induction calls with
  | nil =>
    intro o
    simp
  | cons c rest ih =>
    intro o
    rw [List.map_cons, List.foldl_cons, ih]
    cases c with
    | noSingleton =>
      simp [OptionCall.eval, ResolveWithNoSingleton, OptionCall.factoryArgs]
    | withFactoryOptions opts =>
      have hf : List.filterMap OptionCall.factoryArgs (OptionCall.withFactoryOptions opts :: rest)
          = opts :: List.filterMap OptionCall.factoryArgs rest := by
        simp [OptionCall.factoryArgs]
      rw [hf, getLastD_cons]
      simp [OptionCall.eval, WithFactoryOptions]

theorem applyOptions_calls (calls : List OptionCall) :
    applyOptions (calls.map OptionCall.eval) =
      { IsSingleton := !calls.contains .noSingleton,
        FactoryOptions := lastFactoryOptions calls } := by
  unfold applyOptions lastFactoryOptions
  rw [foldl_option_calls]
  simp

/-- On a cache miss with a factory stored, `resolveSingleton` records exactly one
invocation, with the factory options it was given, whatever the factory returns. -/
theorem resolveSingleton_miss_calls (T : GoType) (name : InstanceName) (o : resolveOptions)
    (w : World) (f : difactory)
    (hi : lookup2 w.store.instances (GetType T) name = none)
    (hf : lookup2 w.store.factories (GetType T) name = some f) :
    (resolveSingleton T name o w).2.calls
      = w.calls ++ [⟨GetType T, name, o.FactoryOptions⟩] := by
  have hc := resolve_calls_of_factory T name o
    (withLocks [.RLock, .RUnlock]
      (withLocks [.Lock, .Unlock] { w with store := ensureSubmap (GetType T) w.store }))
    f (by simpa using hf)
  unfold resolveSingleton
  simp only [withLocks_store, lookup2_ensureSubmap, hi]
  split
  · rename_i p w3 hr
    rw [hr] at hc
    exact hc
  · rename_i inst err w3 hr
    rw [hr] at hc
    split <;> exact hc
  · rename_i inst w3 hr
    rw [hr] at hc
    split
    · exact hc
    · split <;> exact hc

/-- C16: `Resolve` applies the given options in order to the default
`IsSingleton: true` with no factory arguments.  With an empty list it is the singleton
resolution without factory arguments.  For a list of calls of the two option constructors:
if `ResolveWithNoSingleton()` occurs anywhere the call is the non-singleton resolution,
otherwise the singleton one, and in both the factory arguments are those of the last
`WithFactoryOptions`; a stored factory that gets invoked is invoked with exactly these. -/
theorem C16_effective_options (T : GoType) (S : InstanceName) (w : World)
    (calls : List OptionCall) :
    (∀ options : List ResolveOption, Resolve T S options w =
      if (applyOptions options).IsSingleton
      then resolveSingleton T S (applyOptions options) w
      else resolve T S (applyOptions options) w) ∧
    applyOptions [] = { IsSingleton := true, FactoryOptions := [] } ∧
    Resolve T S [] w = resolveSingleton T S { IsSingleton := true, FactoryOptions := [] } w ∧
    (OptionCall.noSingleton ∈ calls →
      Resolve T S (calls.map OptionCall.eval) w
        = resolve T S { IsSingleton := false, FactoryOptions := lastFactoryOptions calls } w) ∧
    (OptionCall.noSingleton ∉ calls →
      Resolve T S (calls.map OptionCall.eval) w
        = resolveSingleton T S
            { IsSingleton := true, FactoryOptions := lastFactoryOptions calls } w) ∧
    (∀ f : difactory, lookup2 w.store.factories (GetType T) S = some f →
      (OptionCall.noSingleton ∈ calls ∨ lookup2 w.store.instances (GetType T) S = none) →
      (Resolve T S (calls.map OptionCall.eval) w).2.calls
        = w.calls ++ [⟨GetType T, S, lastFactoryOptions calls⟩]) := by
  have hin : OptionCall.noSingleton ∈ calls →
      Resolve T S (calls.map OptionCall.eval) w
        = resolve T S { IsSingleton := false, FactoryOptions := lastFactoryOptions calls } w := by
    intro h
    rw [Resolve_eq_applyOptions, applyOptions_calls]
    simp [h]
  have hout : OptionCall.noSingleton ∉ calls →
      Resolve T S (calls.map OptionCall.eval) w
        = resolveSingleton T S
            { IsSingleton := true, FactoryOptions := lastFactoryOptions calls } w := by
    intro h
    rw [Resolve_eq_applyOptions, applyOptions_calls]
    simp [h]
  refine ⟨fun options => rfl, rfl, rfl, hin, hout, ?_⟩
  intro f hf hcase
  by_cases hmem : OptionCall.noSingleton ∈ calls
  · rw [hin hmem]
    exact resolve_calls_of_factory T S _ w f hf
  · rw [hout hmem]
    rcases hcase with h | h
    · exact absurd h hmem
    · exact resolveSingleton_miss_calls T S _ w f h hf

/-- C16 at a list with two `WithFactoryOptions` around a `ResolveWithNoSingleton()`: the
call is non-singleton and the factory is invoked with the arguments of the second one. -/
theorem C16_effective_options_witness :
    lastFactoryOptions
        [.withFactoryOptions [.dyn Config 1], .noSingleton, .withFactoryOptions [.dyn Config 2]]
      = [.dyn Config 2] ∧
    Resolve Config Default
      ([.withFactoryOptions [.dyn Config 1], .noSingleton,
        .withFactoryOptions [.dyn Config 2]].map OptionCall.eval)
      (worldWithFactory Config Default configFactory)
      = resolve Config Default
          { IsSingleton := false,
            FactoryOptions := lastFactoryOptions
              [.withFactoryOptions [.dyn Config 1], .noSingleton,
                .withFactoryOptions [.dyn Config 2]] }
          (worldWithFactory Config Default configFactory) ∧
    (Resolve Config Default
      ([.withFactoryOptions [.dyn Config 1], .noSingleton,
        .withFactoryOptions [.dyn Config 2]].map OptionCall.eval)
      (worldWithFactory Config Default configFactory)).2.calls
      = (worldWithFactory Config Default configFactory).calls ++
          [⟨GetType Config, Default, lastFactoryOptions
            [.withFactoryOptions [.dyn Config 1], .noSingleton,
              .withFactoryOptions [.dyn Config 2]]⟩] :=
  ⟨by decide,
    (C16_effective_options Config Default (worldWithFactory Config Default configFactory)
      [.withFactoryOptions [.dyn Config 1], .noSingleton,
        .withFactoryOptions [.dyn Config 2]]).2.2.2.1 (by decide),
    (C16_effective_options Config Default (worldWithFactory Config Default configFactory)
      [.withFactoryOptions [.dyn Config 1], .noSingleton,
        .withFactoryOptions [.dyn Config 2]]).2.2.2.2.2 configFactory rfl
      (Or.inl (by decide))⟩

/-! ## C18 -/

theorem ensureSubmap_instances_ne (key : String) (c : container) (k : String)
    (hk : k ≠ key) : (ensureSubmap key c).instances k = c.instances k := by
  unfold ensureSubmap
  split
  · rfl
  · simp [mapSet, hk]

theorem setInstance_instances_ne (key : String) (n : InstanceName) (v : GoAny)
    (c c2 : container) (h : setInstance key n v c = some c2) (k : String) (hk : k ≠ key) :
    c2.instances k = c.instances k := by
  unfold setInstance at h
  split at h
  · cases h
  · cases h
    simp [mapSet, hk]

/-- The store `AddInstance` leaves: the one before with the sub-map ensured, or that one
with the instance written. -/
theorem AddInstance_store_cases (T : GoType) (S : InstanceName) (v : GoAny) (w : World) :
    ((∃ old, lookup2 w.store.instances (GetType T) S = some old) ∧
      (AddInstance T S v w).2.store = ensureSubmap (GetType T) w.store) ∨
    (lookup2 w.store.instances (GetType T) S = none ∧
      setInstance (GetType T) S v (ensureSubmap (GetType T) w.store)
        = some (AddInstance T S v w).2.store) := by
  cases hl : lookup2 w.store.instances (GetType T) S with
  | none => exact Or.inr ⟨rfl, (AddInstance_fresh T S v w hl).2.1⟩
  | some old =>
    refine Or.inl ⟨⟨old, rfl⟩, ?_⟩
    unfold AddInstance
    simp [hl]

/-- C18: each of `AddInstance[T](S, v)`, `ReplaceInstance[T](S, v)` and `DeleteInstance[T](S)`
leaves the factory table as it was, leaves the sub-map of every key other than `GetType T`
as it was (present or missing), and leaves the entry of every pair `(k, s)` other than
`(GetType T, S)` as it was (present with the same value, or missing); what can change
besides the entry `(GetType T, S)` is only that the sub-map of `GetType T` comes to exist. -/
theorem C18_instance_writes_frame (T : GoType) (S : InstanceName) (v : GoAny) (w : World) :
    ((AddInstance T S v w).2.store.factories = w.store.factories ∧
      (∀ k, k ≠ GetType T →
        (AddInstance T S v w).2.store.instances k = w.store.instances k) ∧
      (∀ k s, ¬ (k = GetType T ∧ s = S) →
        lookup2 (AddInstance T S v w).2.store.instances k s
          = lookup2 w.store.instances k s)) ∧
    ((ReplaceInstance T S v w).2.store.factories = w.store.factories ∧
      (∀ k, k ≠ GetType T →
        (ReplaceInstance T S v w).2.store.instances k = w.store.instances k) ∧
      (∀ k s, ¬ (k = GetType T ∧ s = S) →
        lookup2 (ReplaceInstance T S v w).2.store.instances k s
          = lookup2 w.store.instances k s)) ∧
    ((DeleteInstance T S w).store.factories = w.store.factories ∧
      (∀ k, k ≠ GetType T →
        (DeleteInstance T S w).store.instances k = w.store.instances k) ∧
      (∀ k s, ¬ (k = GetType T ∧ s = S) →
        lookup2 (DeleteInstance T S w).store.instances k s
          = lookup2 w.store.instances k s)) := by
  have hset : ∀ c2 : container,
      setInstance (GetType T) S v (ensureSubmap (GetType T) w.store) = some c2 →
      c2.factories = w.store.factories ∧
      (∀ k, k ≠ GetType T → c2.instances k = w.store.instances k) ∧
      (∀ k s, ¬ (k = GetType T ∧ s = S) →
        lookup2 c2.instances k s = lookup2 w.store.instances k s) := by
    intro c2 h
    refine ⟨?_, ?_, ?_⟩
    · rw [setInstance_factories _ _ _ _ _ h, ensureSubmap_factories]
    · intro k hk
      rw [setInstance_instances_ne _ _ _ _ _ h k hk, ensureSubmap_instances_ne _ _ _ hk]
    · intro k s hks
      rw [lookup2_setInstance _ _ _ _ _ h, if_neg hks, lookup2_ensureSubmap]
  refine ⟨?_, hset _ (ReplaceInstance_spec T S v w).2.1, ?_⟩
  · rcases AddInstance_store_cases T S v w with ⟨_, hs⟩ | ⟨_, hs⟩
    · rw [hs]
      exact ⟨ensureSubmap_factories _ _,
        fun k hk => ensureSubmap_instances_ne _ _ _ hk,
        fun k s _ => lookup2_ensureSubmap _ _ k s⟩
    · exact hset _ hs
  · refine ⟨DeleteInstance_factories T S w, ?_, ?_⟩
    · intro k hk
      unfold DeleteInstance
      simp only []
      split
      · rfl
      · simp [mapSet, hk]
    · intro k s hks
      rw [lookup2_DeleteInstance, if_neg hks]

/-- C18 at the slot `"other"` next to the default slot of `Config`: the three operations on
the default slot leave the entry at `"other"` and its value in place. -/
theorem C18_instance_writes_frame_witness :
    lookup2 (worldWithInstance Config "other" (.dyn Config 5)).store.instances
      (GetType Config) "other" = some (.dyn Config 5) ∧
    lookup2 (AddInstance Config Default (.dyn Config 6)
      (worldWithInstance Config "other" (.dyn Config 5))).2.store.instances
      (GetType Config) "other"
      = lookup2 (worldWithInstance Config "other" (.dyn Config 5)).store.instances
          (GetType Config) "other" ∧
    lookup2 (ReplaceInstance Config Default (.dyn Config 6)
      (worldWithInstance Config "other" (.dyn Config 5))).2.store.instances
      (GetType Config) "other"
      = lookup2 (worldWithInstance Config "other" (.dyn Config 5)).store.instances
          (GetType Config) "other" ∧
    lookup2 (DeleteInstance Config Default
      (worldWithInstance Config "other" (.dyn Config 5))).store.instances
      (GetType Config) "other"
      = lookup2 (worldWithInstance Config "other" (.dyn Config 5)).store.instances
          (GetType Config) "other" :=
  ⟨by decide,
    (C18_instance_writes_frame Config Default (.dyn Config 6)
      (worldWithInstance Config "other" (.dyn Config 5))).1.2.2
      (GetType Config) "other" (by decide),
    (C18_instance_writes_frame Config Default (.dyn Config 6)
      (worldWithInstance Config "other" (.dyn Config 5))).2.1.2.2
      (GetType Config) "other" (by decide),
    (C18_instance_writes_frame Config Default (.dyn Config 6)
      (worldWithInstance Config "other" (.dyn Config 5))).2.2.2.2
      (GetType Config) "other" (by decide)⟩

/-! ## C17 -/

theorem resolve_factory_illtyped (T : GoType) (name : InstanceName) (o : resolveOptions)
    (w : World) (f : difactory) (x : GoAny)
    (h : lookup2 w.store.factories (GetType T) name = some f)
    (hx : f o.FactoryOptions w.calls.length = (x, none))
    (ht : hasType T x = false) :
    resolve T name o w =
      (.panic .typeAssertion,
        { withLocks [.RLock, .RUnlock] w with
          calls := w.calls ++ [⟨GetType T, name, o.FactoryOptions⟩] }) := by
  unfold resolve
  simp [h, hx, typeAssert, ht]

/-- The store `resolveSingleton` leaves: the one before with the sub-map ensured, or that
one with a value written that the stored factory built without error and that passed the
type assertion. -/
theorem resolveSingleton_store_cases (T : GoType) (name : InstanceName) (o : resolveOptions)
    (w : World) :
    (resolveSingleton T name o w).2.store = ensureSubmap (GetType T) w.store ∨
    ∃ (f : difactory) (x : GoAny),
      lookup2 w.store.factories (GetType T) name = some f ∧
      f o.FactoryOptions w.calls.length = (x, none) ∧
      hasType T x = true ∧
      setInstance (GetType T) name x (ensureSubmap (GetType T) w.store)
        = some (resolveSingleton T name o w).2.store := by
  cases hi : lookup2 w.store.instances (GetType T) name with
  | some v =>
    left
    rw [resolveSingleton_hit T name o w v hi]
    simp only [withLocks_store]
    unfold lookup2 at hi
    split at hi
    · cases hi
    · rename_i inner hin
      exact (ensureSubmap_of_some _ _ inner hin).symm
  | none =>
    cases hf : lookup2 w.store.factories (GetType T) name with
    | none => exact Or.inl (resolveSingleton_miss_no_factory T name o w hi hf).2.1
    | some f =>
      cases hr : f o.FactoryOptions w.calls.length with
      | mk x err =>
        cases err with
        | some e =>
          exact Or.inl
            (resolveSingleton_miss_factory_err T name o w f e hi hf (by rw [hr])).2.1
        | none =>
          cases ht : hasType T x with
          | true =>
            exact Or.inr ⟨f, x, rfl, hr, ht,
              (resolveSingleton_miss_factory_ok T name o w f x hi hf hr ht).2.1⟩
          | false =>
            left
            unfold resolveSingleton
            simp only [withLocks_store, lookup2_ensureSubmap, hi]
            rw [resolve_factory_illtyped _ _ _ _ f x (by simpa using hf) (by simpa using hr) ht]
            rfl

/-- The store `Resolve` leaves, for any options. -/
theorem Resolve_store_cases (T : GoType) (name : InstanceName) (options : List ResolveOption)
    (w : World) :
    (Resolve T name options w).2.store = w.store ∨
    (Resolve T name options w).2.store = ensureSubmap (GetType T) w.store ∨
    ∃ (f : difactory) (x : GoAny) (args : List GoAny),
      lookup2 w.store.factories (GetType T) name = some f ∧
      f args w.calls.length = (x, none) ∧
      hasType T x = true ∧
      setInstance (GetType T) name x (ensureSubmap (GetType T) w.store)
        = some (Resolve T name options w).2.store := by
  rw [Resolve_eq_applyOptions]
  split
  · rcases resolveSingleton_store_cases T name (applyOptions options) w with h | ⟨f, x, h⟩
    · exact Or.inr (Or.inl h)
    · exact Or.inr (Or.inr ⟨f, x, _, h⟩)
  · exact Or.inl (resolve_store T name _ w)

theorem instancesWellTyped_ensureSubmap (T : GoType) (key : String) (c : container)
    (h : instancesWellTyped T c) : instancesWellTyped T (ensureSubmap key c) := by
  intro n v hv
  rw [lookup2_ensureSubmap] at hv
  exact h n v hv

theorem instancesWellTyped_setInstance (T : GoType) (key : String) (n : InstanceName)
    (v : GoAny) (c c2 : container) (h : instancesWellTyped T c)
    (hs : setInstance key n v c = some c2)
    (hv : key = GetType T → hasType T v = true) : instancesWellTyped T c2 := by
  intro n2 v2 h2
  rw [lookup2_setInstance _ _ _ _ _ hs] at h2
  split at h2
  · rename_i hk
    cases h2
    exact hv hk.1.symm
  · exact h n2 v2 h2

theorem Op_wellTyped_inst (T U : GoType) (inst : GoAny)
    (h : (!(GetType U == GetType T) || hasType T inst) = true) :
    GetType U = GetType T → hasType T inst = true := by
  intro hk
  simpa [hk] using h

/-- A well-typed call keeps the factory table and keeps every instance under the key of `T`
well-typed. -/
theorem Op_run_preserves (T : GoType) (op : Op) (w : World)
    (hop : op.wellTyped T = true)
    (hF : factoriesWellTyped T w.store.factories)
    (hI : instancesWellTyped T w.store) :
    (op.run w).store.factories = w.store.factories ∧
    instancesWellTyped T (op.run w).store := by
  cases op with
  | add U name inst =>
    have hv := Op_wellTyped_inst T U inst hop
    simp only [Op.run]
    rcases AddInstance_store_cases U name inst w with ⟨_, hs⟩ | ⟨_, hs⟩
    · rw [hs]
      exact ⟨ensureSubmap_factories _ _, instancesWellTyped_ensureSubmap T _ _ hI⟩
    · exact ⟨by rw [setInstance_factories _ _ _ _ _ hs, ensureSubmap_factories],
        instancesWellTyped_setInstance T _ _ _ _ _
          (instancesWellTyped_ensureSubmap T _ _ hI) hs hv⟩
  | replace U name inst =>
    have hv := Op_wellTyped_inst T U inst hop
    have hs := (ReplaceInstance_spec U name inst w).2.1
    simp only [Op.run]
    exact ⟨by rw [setInstance_factories _ _ _ _ _ hs, ensureSubmap_factories],
      instancesWellTyped_setInstance T _ _ _ _ _
        (instancesWellTyped_ensureSubmap T _ _ hI) hs hv⟩
  | delete U name =>
    simp only [Op.run]
    refine ⟨DeleteInstance_factories U name w, ?_⟩
    intro n v hv
    rw [lookup2_DeleteInstance] at hv
    split at hv
    · cases hv
    · exact hI n v hv
  | resolve U name options =>
    simp only [Op.run]
    rcases Resolve_store_cases U name options w with hs | hs | ⟨f, x, args, hf, hx, _, hs⟩
    · rw [hs]
      exact ⟨rfl, hI⟩
    · rw [hs]
      exact ⟨ensureSubmap_factories _ _, instancesWellTyped_ensureSubmap T _ _ hI⟩
    · refine ⟨by rw [setInstance_factories _ _ _ _ _ hs, ensureSubmap_factories],
        instancesWellTyped_setInstance T _ _ _ _ _
          (instancesWellTyped_ensureSubmap T _ _ hI) hs ?_⟩
      intro hk
      have h1 : lookup2 w.store.factories (GetType T) name = some f := by
        rw [← hk]
        exact hf
      have h2 := hF name f h1 args w.calls.length (by rw [hx])
      rw [hx] at h2
      exact h2

theorem runOps_preserves (T : GoType) (ops : List Op) :
    ∀ (w : World), (∀ op ∈ ops, op.wellTyped T = true) →
      factoriesWellTyped T w.store.factories → instancesWellTyped T w.store →
      (runOps ops w).store.factories = w.store.factories ∧
      instancesWellTyped T (runOps ops w).store := by
  induction ops with
  | nil =>
    intro w _ _ hI
    exact ⟨rfl, hI⟩
  | cons op rest ih =>
    intro w hops hF hI
    have h1 := Op_run_preserves T op w (hops op (by simp)) hF hI
    have h2 := ih (op.run w) (fun o ho => hops o (by simp [ho])) (by rw [h1.1]; exact hF) h1.2
    simp only [runOps, List.foldl_cons] at h2 ⊢
    exact ⟨by rw [h2.1, h1.1], h2.2⟩

/-- In a world where the factories and the instances under the key of `T` are well-typed,
`Resolve[T]` returns what it found or built whenever the resolution succeeds, and it can
panic only on the failure path of the singleton mode of an interface type. -/
theorem Resolve_in_wellTyped_world (T : GoType) (S : InstanceName)
    (options : List ResolveOption) (w : World)
    (hF : factoriesWellTyped T w.store.factories)
    (hI : instancesWellTyped T w.store) :
    (∀ v, (applyOptions options).IsSingleton = true →
      lookup2 w.store.instances (GetType T) S = some v →
      (Resolve T S options w).1 = .ret (v, none)) ∧
    (∀ f : difactory, lookup2 w.store.factories (GetType T) S = some f →
      (f (applyOptions options).FactoryOptions w.calls.length).2 = none →
      ((applyOptions options).IsSingleton = false ∨
        lookup2 w.store.instances (GetType T) S = none) →
      (Resolve T S options w).1
        = .ret ((f (applyOptions options).FactoryOptions w.calls.length).1, none)) ∧
    (∀ p, (Resolve T S options w).1 = .panic p →
      (applyOptions options).IsSingleton = true ∧ T.isInterface = true ∧
      lookup2 w.store.instances (GetType T) S = none ∧
      (lookup2 w.store.factories (GetType T) S = none ∨
        ∃ (f : difactory) (e : GoError), lookup2 w.store.factories (GetType T) S = some f ∧
          (f (applyOptions options).FactoryOptions w.calls.length).2 = some e)) := by
  have hok : ∀ f : difactory, lookup2 w.store.factories (GetType T) S = some f →
      (f (applyOptions options).FactoryOptions w.calls.length).2 = none →
      f (applyOptions options).FactoryOptions w.calls.length
        = ((f (applyOptions options).FactoryOptions w.calls.length).1, none) ∧
      hasType T (f (applyOptions options).FactoryOptions w.calls.length).1 = true := by
    intro f hf he
    refine ⟨?_, hF S f hf _ _ he⟩
    rw [← he]
  refine ⟨?_, ?_, ?_⟩
  · intro v hs hv
    rw [Resolve_eq_applyOptions, if_pos hs, resolveSingleton_hit T S _ w v hv,
      typeAssert_of_hasType _ _ (hI S v hv)]
  · intro f hf he hcase
    obtain ⟨hx, ht⟩ := hok f hf he
    rw [Resolve_eq_applyOptions]
    split
    · rename_i hs
      rcases hcase with h | h
      · rw [hs] at h
        cases h
      · exact (resolveSingleton_miss_factory_ok T S _ w f _ h hf hx ht).1
    · rw [resolve_factory_ok T S _ w f _ hf hx ht]
  · intro p hp
    rw [Resolve_eq_applyOptions] at hp
    split at hp
    · rename_i hs
      cases hi : lookup2 w.store.instances (GetType T) S with
      | some v =>
        rw [resolveSingleton_hit T S _ w v hi, typeAssert_of_hasType _ _ (hI S v hi)] at hp
        cases hp
      | none =>
        cases hT : T.isInterface with
        | false =>
          exfalso
          cases hf : lookup2 w.store.factories (GetType T) S with
          | none =>
            rw [(resolveSingleton_miss_no_factory T S _ w hi hf).1,
              typeAssert_zeroValue_concrete T hT] at hp
            cases hp
          | some f =>
            cases he : (f (applyOptions options).FactoryOptions w.calls.length).2 with
            | some e =>
              rw [(resolveSingleton_miss_factory_err T S _ w f e hi hf he).1,
                typeAssert_zeroValue_concrete T hT] at hp
              cases hp
            | none =>
              obtain ⟨hx, ht⟩ := hok f hf he
              rw [(resolveSingleton_miss_factory_ok T S _ w f _ hi hf hx ht).1] at hp
              cases hp
        | true =>
          refine ⟨hs, rfl, rfl, ?_⟩
          cases hf : lookup2 w.store.factories (GetType T) S with
          | none => exact Or.inl rfl
          | some f =>
            cases he : (f (applyOptions options).FactoryOptions w.calls.length).2 with
            | some e => exact Or.inr ⟨f, e, rfl, he⟩
            | none =>
              exfalso
              obtain ⟨hx, ht⟩ := hok f hf he
              rw [(resolveSingleton_miss_factory_ok T S _ w f _ hi hf hx ht).1] at hp
              cases hp
    · exfalso
      cases hf : lookup2 w.store.factories (GetType T) S with
      | none =>
        rw [resolve_no_factory T S _ w hf] at hp
        cases hp
      | some f =>
        cases he : (f (applyOptions options).FactoryOptions w.calls.length).2 with
        | some e =>
          rw [resolve_factory_err T S _ w f e hf he] at hp
          cases hp
        | none =>
          obtain ⟨hx, ht⟩ := hok f hf he
          rw [resolve_factory_ok T S _ w f _ hf hx ht] at hp
          cases hp

/-- C17: let every factory stored under the key of `T` return, on success, a non-nil value
whose dynamic type is `T` or implements `T`, and let the registry be used, from an empty
instance table, by any sequence of `AddInstance`, `ReplaceInstance`, `DeleteInstance` and
`Resolve` calls that inject under the key of `T` only such values.  Then every instance
under the key of `T` passes the assertion to `T`; a `Resolve[T]` that finds the instance
cached, or whose factory succeeds, returns that value (its type assertions succeed); and a
`Resolve[T]` can panic only when the resolution fails (no factory, or a factory error, in
singleton mode). -/
theorem C17_downcast_safety (T : GoType)
    (factories : String → Option (InstanceName → Option difactory)) (ops : List Op)
    (S : InstanceName) (options : List ResolveOption)
    (hF : factoriesWellTyped T factories)
    (hops : ∀ op ∈ ops, op.wellTyped T = true) :
    instancesWellTyped T (runOps ops (worldWithFactories factories)).store ∧
    (∀ v, (applyOptions options).IsSingleton = true →
      lookup2 (runOps ops (worldWithFactories factories)).store.instances (GetType T) S
        = some v →
      (Resolve T S options (runOps ops (worldWithFactories factories))).1 = .ret (v, none)) ∧
    (∀ f : difactory,
      lookup2 (runOps ops (worldWithFactories factories)).store.factories (GetType T) S
        = some f →
      (f (applyOptions options).FactoryOptions
        (runOps ops (worldWithFactories factories)).calls.length).2 = none →
      ((applyOptions options).IsSingleton = false ∨
        lookup2 (runOps ops (worldWithFactories factories)).store.instances (GetType T) S
          = none) →
      (Resolve T S options (runOps ops (worldWithFactories factories))).1
        = .ret ((f (applyOptions options).FactoryOptions
            (runOps ops (worldWithFactories factories)).calls.length).1, none)) ∧
    (∀ p, (Resolve T S options (runOps ops (worldWithFactories factories))).1 = .panic p →
      (applyOptions options).IsSingleton = true ∧ T.isInterface = true ∧
      lookup2 (runOps ops (worldWithFactories factories)).store.instances (GetType T) S
        = none ∧
      (lookup2 (runOps ops (worldWithFactories factories)).store.factories (GetType T) S
          = none ∨
        ∃ (f : difactory) (e : GoError),
          lookup2 (runOps ops (worldWithFactories factories)).store.factories (GetType T) S
            = some f ∧
          (f (applyOptions options).FactoryOptions
            (runOps ops (worldWithFactories factories)).calls.length).2 = some e)) := by
  have h0 : instancesWellTyped T (worldWithFactories factories).store := by
    intro n v hv
    simp [worldWithFactories, init, lookup2] at hv
  have hp := runOps_preserves T ops (worldWithFactories factories) hops hF h0
  have hF2 : factoriesWellTyped T (runOps ops (worldWithFactories factories)).store.factories := by
    rw [hp.1]
    exact hF
  exact ⟨hp.2, Resolve_in_wellTyped_world T S options _ hF2 hp.2⟩

/-- C17 at the interface type `Greeter`: after an injection, a resolution through the
factory, a deletion and a replacement, `Resolve[Greeter]` returns the cached value. -/
theorem C17_downcast_safety_witness :
    (Resolve Greeter Default []
      (runOps
        [.add Greeter "a" (.dyn English 9), .resolve Greeter Default [],
          .delete Greeter Default, .replace Greeter Default (.dyn English 3)]
        (worldWithFactories
          (worldWithFactory Greeter Default englishFactory).store.factories))).1
      = .ret (.dyn English 3, none) :=
  (C17_downcast_safety Greeter
    (worldWithFactory Greeter Default englishFactory).store.factories
    [.add Greeter "a" (.dyn English 9), .resolve Greeter Default [],
      .delete Greeter Default, .replace Greeter Default (.dyn English 3)]
    Default []
    (by
      intro n f h args k _
      simp only [worldWithFactory, lookup2, mapSet, init, if_true] at h
      split at h
      · cases h
        rfl
      · cases h)
    (by
      intro op hop
      simp only [List.mem_cons, List.mem_singleton, List.not_mem_nil, or_false] at hop
      rcases hop with rfl | rfl | rfl | rfl <;> rfl)).2.1
    (.dyn English 3) rfl rfl

/-! ## C14 -/

/-- A call of `resolveSingleton` running alone, step by step, is the function
`resolveSingleton`: five steps suffice, and they yield its result and its world. -/
theorem runThread_alone (T : GoType) (name : InstanceName) (o : resolveOptions) (w : World) :
    runThread T name o 5 (.start, w) =
      (.done (resolveSingleton T name o w).1, (resolveSingleton T name o w).2) := by
  cases hi : lookup2 w.store.instances (GetType T) name with
  | some v =>
    cases ha : typeAssert T v <;>
      simp [runThread, stepThread, resolveSingleton, hi, ha]
  | none =>
    cases hf : lookup2 w.store.factories (GetType T) name with
    | none =>
      cases ha : typeAssert T (zeroValue T) <;>
        simp [runThread, stepThread, resolveSingleton, resolve, hi, hf, ha]
    | some f =>
      cases he : (f o.FactoryOptions w.calls.length).2 with
      | some e =>
        cases ha : typeAssert T (zeroValue T) <;>
          simp [runThread, stepThread, resolveSingleton, resolve, hi, hf, he, ha]
      | none =>
        cases ha : typeAssert T (f o.FactoryOptions w.calls.length).1 with
        | panic p => simp [runThread, stepThread, resolveSingleton, resolve, hi, hf, he, ha]
        | ret v =>
          have hv : v = (f o.FactoryOptions w.calls.length).1 := by
            unfold typeAssert at ha
            split at ha
            · cases ha
              rfl
            · cases ha
          subst hv
          simp [runThread, stepThread, resolveSingleton, resolve, hi, hf, he, ha,
            setInstance_ensureSubmap, withLocks]

theorem producedBy_mono (f : difactory) (args : List GoAny) (base : Nat) (w w2 : World)
    (v : GoAny) (h : producedBy f args base w v) (hc : w.calls.length ≤ w2.calls.length) :
    producedBy f args base w2 v := by
  obtain ⟨k, hb, hk, hv⟩ := h
  exact ⟨k, hb, Nat.lt_of_lt_of_le hk hc, hv⟩

theorem producedBy_hasType (T : GoType) (f : difactory) (args : List GoAny) (base : Nat)
    (w : World) (v : GoAny)
    (hok : ∀ k, (f args k).2 = none ∧ hasType T (f args k).1 = true)
    (h : producedBy f args base w v) : hasType T v = true := by
  obtain ⟨k, _, _, hv⟩ := h
  rw [hv]
  exact (hok k).2

theorem threadOk_mono (T : GoType) (f : difactory) (args : List GoAny) (base : Nat)
    (w w2 : World) (t : Thread)
    (h : threadOk T f args base w t)
    (hs : (w.store.instances (GetType T)).isSome = true →
      (w2.store.instances (GetType T)).isSome = true)
    (hc : w.calls.length ≤ w2.calls.length) :
    threadOk T f args base w2 t := by
  cases t with
  | start => trivial
  | ensured => exact hs h
  | missed => exact hs h
  | gotFactory g => exact ⟨h.1, hs h.2⟩
  | built v => exact ⟨producedBy_mono f args base w w2 v h.1 hc, hs h.2⟩
  | done r =>
    obtain ⟨v, hr, hp⟩ := h
    exact ⟨v, hr, producedBy_mono f args base w w2 v hp hc⟩

theorem setInstance_of_isSome (key : String) (n : InstanceName) (v : GoAny) (c : container)
    (h : (c.instances key).isSome = true) :
    ∃ c2, setInstance key n v c = some c2 ∧ (c2.instances key).isSome = true := by
  unfold setInstance
  cases hi : c.instances key with
  | none => simp [hi] at h
  | some inner => exact ⟨_, rfl, by simp [mapSet]⟩

/-- One step of one call keeps what is known of the world and of the call, never removes
the sub-map or a cached instance, never shortens the invocation log, and moves a call
that has not yet returned forward. -/
theorem stepThread_invariant (T : GoType) (name : InstanceName) (o : resolveOptions)
    (f : difactory) (w0 w : World) (t : Thread)
    (hok : ∀ k, (f o.FactoryOptions k).2 = none ∧ hasType T (f o.FactoryOptions k).1 = true)
    (hW : worldOk T name f o.FactoryOptions w0 w)
    (ht : threadOk T f o.FactoryOptions w0.calls.length w t) :
    worldOk T name f o.FactoryOptions w0 (stepThread T name o t w).2 ∧
    threadOk T f o.FactoryOptions w0.calls.length (stepThread T name o t w).2
      (stepThread T name o t w).1 ∧
    ((w.store.instances (GetType T)).isSome = true →
      ((stepThread T name o t w).2.store.instances (GetType T)).isSome = true) ∧
    w.calls.length ≤ (stepThread T name o t w).2.calls.length ∧
    ((lookup2 w.store.instances (GetType T) name).isSome = true →
      (lookup2 (stepThread T name o t w).2.store.instances (GetType T) name).isSome = true) ∧
    (t.early = true →
      (stepThread T name o t w).1.early = true ∨
      (stepThread T name o t w).1.inFlight = true ∨
      (lookup2 (stepThread T name o t w).2.store.instances (GetType T) name).isSome = true) ∧
    (t.inFlight = true →
      (stepThread T name o t w).1.inFlight = true ∨
      (lookup2 (stepThread T name o t w).2.store.instances (GetType T) name).isSome = true) := by
  obtain ⟨hWf, ⟨m, hWc⟩, hWi⟩ := hW
  cases t with
  | start =>
    simp only [stepThread, withLocks_store, withLocks_calls]
    refine ⟨⟨?_, ⟨m, hWc⟩, ?_⟩, ?_, ?_, Nat.le_refl _, ?_, ?_, ?_⟩
    · show lookup2 (ensureSubmap (GetType T) w.store).factories (GetType T) name = some f
      rw [ensureSubmap_factories]
      exact hWf
    · intro v hv
      have hv2 : lookup2 (ensureSubmap (GetType T) w.store).instances (GetType T) name
          = some v := hv
      rw [lookup2_ensureSubmap] at hv2
      exact hWi v hv2
    · show ((ensureSubmap (GetType T) w.store).instances (GetType T)).isSome = true
      rw [ensureSubmap_instances_self]
      rfl
    · intro _
      rw [ensureSubmap_instances_self]
      rfl
    · intro h
      rw [lookup2_ensureSubmap]
      exact h
    · intro _
      exact Or.inl rfl
    · intro h
      cases h
  | ensured =>
    cases hi : lookup2 w.store.instances (GetType T) name with
    | some v =>
      have hp := hWi v hi
      have hv := producedBy_hasType T f o.FactoryOptions _ w v hok hp
      simp only [stepThread, hi, typeAssert_of_hasType T v hv, withLocks_store,
        withLocks_calls]
      refine ⟨⟨hWf, ⟨m, hWc⟩, hWi⟩, ⟨v, rfl, hp⟩, fun h => h, Nat.le_refl _, fun h => h,
        ?_, ?_⟩
      · intro _
        exact Or.inr (Or.inr rfl)
      · intro h
        cases h
    | none =>
      simp only [stepThread, hi, withLocks_store, withLocks_calls]
      refine ⟨⟨hWf, ⟨m, hWc⟩, hWi⟩, ht, fun h => h, Nat.le_refl _, fun h => h, ?_, ?_⟩
      · intro _
        exact Or.inr (Or.inl rfl)
      · intro h
        cases h
  | missed =>
    simp only [stepThread, hWf, withLocks_store, withLocks_calls]
    refine ⟨⟨hWf, ⟨m, hWc⟩, hWi⟩, ⟨rfl, ht⟩, fun h => h, Nat.le_refl _, fun h => h, ?_, ?_⟩
    · intro h
      cases h
    · intro _
      exact Or.inl rfl
  | gotFactory g =>
    obtain ⟨hg, hsub⟩ := ht
    subst hg
    have he := (hok w.calls.length).1
    have hv := (hok w.calls.length).2
    simp only [stepThread, he, typeAssert_of_hasType T _ hv]
    have hlen : w0.calls.length ≤ w.calls.length := by
      rw [hWc]
      simp
    refine ⟨⟨hWf, ⟨m + 1, ?_⟩, ?_⟩, ⟨⟨w.calls.length, hlen, ?_, rfl⟩, hsub⟩, fun h => h, ?_,
      fun h => h, ?_, ?_⟩
    · rw [hWc, List.replicate_succ', List.append_assoc]
    · intro v hv2
      exact producedBy_mono _ _ _ w _ v (hWi v hv2) (by simp)
    · simp
    · simp
    · intro h
      cases h
    · intro _
      exact Or.inl rfl
  | built v =>
    obtain ⟨hp, hsub⟩ := ht
    have hv := producedBy_hasType T f o.FactoryOptions _ w v hok hp
    obtain ⟨c2, hset, hsub2⟩ := setInstance_of_isSome (GetType T) name v w.store hsub
    have hl : lookup2 c2.instances (GetType T) name = some v := by
      rw [lookup2_setInstance _ _ _ _ _ hset]
      simp
    simp only [stepThread, hset, typeAssert_of_hasType T v hv, withLocks_store,
      withLocks_calls]
    refine ⟨⟨?_, ⟨m, hWc⟩, ?_⟩, ⟨v, rfl, hp⟩, fun _ => hsub2, Nat.le_refl _, ?_, ?_, ?_⟩
    · show lookup2 c2.factories (GetType T) name = some f
      rw [setInstance_factories _ _ _ _ _ hset]
      exact hWf
    · intro v2 hv2
      have hv3 : lookup2 c2.instances (GetType T) name = some v2 := hv2
      rw [hl] at hv3
      cases hv3
      exact hp
    · intro _
      rw [hl]
      rfl
    · intro h
      cases h
    · intro _
      exact Or.inr (by rw [hl]; rfl)
  | done r =>
    simp only [stepThread]
    refine ⟨⟨hWf, ⟨m, hWc⟩, hWi⟩, ht, fun h => h, Nat.le_refl _, fun h => h, ?_, ?_⟩
    · intro h
      cases h
    · intro h
      cases h

theorem poolOk_initial (T : GoType) (name : InstanceName) (f : difactory)
    (args : List GoAny) (n : Nat) (w0 : World)
    (hf : lookup2 w0.store.factories (GetType T) name = some f)
    (hi : lookup2 w0.store.instances (GetType T) name = none) :
    poolOk T name f args n w0 (Pool.initial w0) := by
  refine ⟨⟨hf, ⟨0, by simp [Pool.initial]⟩, ?_⟩, fun _ _ => trivial, Or.inl (fun _ _ => rfl)⟩
  intro v hv
  have hv2 : lookup2 w0.store.instances (GetType T) name = some v := hv
  rw [hi] at hv2
  cases hv2

theorem poolOk_step (T : GoType) (name : InstanceName) (o : resolveOptions) (f : difactory)
    (n : Nat) (w0 : World) (c : Pool) (i : Nat)
    (hok : ∀ k, (f o.FactoryOptions k).2 = none ∧ hasType T (f o.FactoryOptions k).1 = true)
    (h : poolOk T name f o.FactoryOptions n w0 c) :
    poolOk T name f o.FactoryOptions n w0 (stepPool T name o n i c) := by
  unfold stepPool
  split
  · rename_i hin
    obtain ⟨hW, hT, hP⟩ := h
    obtain ⟨hW2, hT2, hsub, hcalls, hcache, hearly, hfly⟩ :=
      stepThread_invariant T name o f w0 c.world (c.threads i) hok hW (hT i hin)
    refine ⟨hW2, ?_, ?_⟩
    · intro j hj
      by_cases hji : j = i
      · simp only [hji, if_true]
        exact hT2
      · simp only [hji, if_false]
        exact threadOk_mono T f _ _ c.world _ _ (hT j hj) hsub hcalls
    · rcases hP with hall | ⟨j, hj, hjf⟩ | hc
      · rcases hearly (hall i hin) with he | hf2 | hc2
        · left
          intro j hj
          by_cases hji : j = i
          · simp only [hji, if_true]
            exact he
          · simp only [hji, if_false]
            exact hall j hj
        · exact Or.inr (Or.inl ⟨i, hin, by simpa using hf2⟩)
        · exact Or.inr (Or.inr hc2)
      · by_cases hji : j = i
        · subst hji
          rcases hfly hjf with hf2 | hc2
          · exact Or.inr (Or.inl ⟨j, hin, by simpa using hf2⟩)
          · exact Or.inr (Or.inr hc2)
        · exact Or.inr (Or.inl ⟨j, hj, by simpa [hji] using hjf⟩)
      · exact Or.inr (Or.inr (hcache hc))
  · exact h

theorem poolOk_run (T : GoType) (name : InstanceName) (o : resolveOptions) (f : difactory)
    (n : Nat) (w0 : World) (sched : List Nat)
    (hok : ∀ k, (f o.FactoryOptions k).2 = none ∧ hasType T (f o.FactoryOptions k).1 = true) :
    ∀ c : Pool, poolOk T name f o.FactoryOptions n w0 c →
      poolOk T name f o.FactoryOptions n w0 (runSchedule T name o n sched c) := by
  induction sched with
  | nil =>
    intro c h
    exact h
  | cons i rest ih =>
    intro c h
    simp only [runSchedule, List.foldl_cons]
    exact ih _ (poolOk_step T name o f n w0 c i hok h)

theorem stepThread_remaining (T : GoType) (name : InstanceName) (o : resolveOptions)
    (t : Thread) (w : World) :
    (stepThread T name o t w).1.remaining ≤ t.remaining - 1 := by
  cases t with
  | start => simp [stepThread, Thread.remaining]
  | ensured =>
    simp only [stepThread]
    split
    · split <;> simp [Thread.remaining]
    · simp [Thread.remaining]
  | missed =>
    simp only [stepThread]
    split
    · split <;> simp [Thread.remaining]
    · simp [Thread.remaining]
  | gotFactory g =>
    simp only [stepThread]
    split
    · split <;> simp [Thread.remaining]
    · split <;> simp [Thread.remaining]
  | built v =>
    simp only [stepThread]
    split
    · simp [Thread.remaining]
    · split <;> simp [Thread.remaining]
  | done r => simp [stepThread, Thread.remaining]

/-- A call that is scheduled `k` times has taken `k` of the steps it had left. -/
theorem runSchedule_remaining (T : GoType) (name : InstanceName) (o : resolveOptions)
    (n : Nat) (i : Nat) (hi : i < n) (sched : List Nat) :
    ∀ c : Pool, ((runSchedule T name o n sched c).threads i).remaining
      ≤ (c.threads i).remaining - sched.count i := by
  induction sched with
  | nil =>
    intro c
    simp [runSchedule]
  | cons j rest ih =>
    intro c
    simp only [runSchedule, List.foldl_cons]
    have h1 := ih (stepPool T name o n j c)
    simp only [runSchedule] at h1
    by_cases hji : j = i
    · subst hji
      have h2 : ((stepPool T name o n j c).threads j).remaining
          ≤ (c.threads j).remaining - 1 := by
        simp only [stepPool, hi, if_true]
        exact stepThread_remaining T name o _ _
      rw [List.count_cons_self]
      omega
    · have h2 : (stepPool T name o n j c).threads i = c.threads i := by
        unfold stepPool
        split
        · simp [Ne.symm hji]
        · rfl
      rw [h2] at h1
      have h3 : List.count i (j :: rest) = List.count i rest := by
        simp [List.count_cons, hji]
      rw [h3]
      exact h1

theorem done_of_remaining_zero (t : Thread) (h : t.remaining = 0) : ∃ r, t = .done r := by
  cases t <;> simp [Thread.remaining] at h
  exact ⟨_, rfl⟩

/-- C14: let a factory `f` that never fails and always returns a value of type `T` be stored
at `(GetType T, S)`, with no instance cached there, and let `N ≥ 1` calls `Resolve[T](S)`
with default options run concurrently, their steps interleaved by any schedule.  Then at
every moment of the run every call that has returned has returned, with a nil error, a
value produced by one of the invocations of `f` made during the run; once all calls have
returned, `IsInstanceExist[T](S)` is true and the cached value is the result of one of
those invocations; and all calls have returned as soon as each has been scheduled five
times. -/
theorem C14_concurrent_first_resolutions (T : GoType) (S : InstanceName) (f : difactory)
    (w0 : World) (N : Nat) (sched : List Nat)
    (hN : 1 ≤ N)
    (hf : lookup2 w0.store.factories (GetType T) S = some f)
    (hok : ∀ k, (f [] k).2 = none ∧ hasType T (f [] k).1 = true)
    (hi : lookup2 w0.store.instances (GetType T) S = none) :
    (∀ i, i < N → ∀ r,
      (runSchedule T S { IsSingleton := true, FactoryOptions := [] } N sched
        (Pool.initial w0)).threads i = .done r →
      ∃ k, w0.calls.length ≤ k ∧
        k < (runSchedule T S { IsSingleton := true, FactoryOptions := [] } N sched
          (Pool.initial w0)).world.calls.length ∧
        r = .ret ((f [] k).1, none)) ∧
    (∃ m, (runSchedule T S { IsSingleton := true, FactoryOptions := [] } N sched
        (Pool.initial w0)).world.calls
      = w0.calls ++ List.replicate m ⟨GetType T, S, []⟩) ∧
    ((∀ i, i < N → ∃ r,
        (runSchedule T S { IsSingleton := true, FactoryOptions := [] } N sched
          (Pool.initial w0)).threads i = .done r) →
      (IsInstanceExist T S
        (runSchedule T S { IsSingleton := true, FactoryOptions := [] } N sched
          (Pool.initial w0)).world).1 = true ∧
      ∃ k, w0.calls.length ≤ k ∧
        k < (runSchedule T S { IsSingleton := true, FactoryOptions := [] } N sched
          (Pool.initial w0)).world.calls.length ∧
        lookup2 (runSchedule T S { IsSingleton := true, FactoryOptions := [] } N sched
          (Pool.initial w0)).world.store.instances (GetType T) S = some (f [] k).1) ∧
    ((∀ i, i < N → 5 ≤ sched.count i) →
      ∀ i, i < N → ∃ r,
        (runSchedule T S { IsSingleton := true, FactoryOptions := [] } N sched
          (Pool.initial w0)).threads i = .done r) := by
  have hinv := poolOk_run T S { IsSingleton := true, FactoryOptions := [] } f N w0 sched hok
    (Pool.initial w0) (poolOk_initial T S f [] N w0 hf hi)
  obtain ⟨⟨_, hcalls, hcache⟩, hthreads, hprog⟩ := hinv
  refine ⟨?_, hcalls, ?_, ?_⟩
  · intro i hiN r hr
    have ht := hthreads i hiN
    rw [hr] at ht
    obtain ⟨v, hv, k, hb, hk, hvk⟩ := ht
    exact ⟨k, hb, hk, by rw [hv, hvk]⟩
  · intro hall
    have hsome : (lookup2 (runSchedule T S { IsSingleton := true, FactoryOptions := [] } N
        sched (Pool.initial w0)).world.store.instances (GetType T) S).isSome = true := by
      rcases hprog with hearly | ⟨j, hj, hjf⟩ | hc
      · obtain ⟨r, hr⟩ := hall 0 hN
        have h0 := hearly 0 hN
        rw [hr] at h0
        cases h0
      · obtain ⟨r, hr⟩ := hall j hj
        rw [hr] at hjf
        cases hjf
      · exact hc
    refine ⟨by rw [IsInstanceExist_eq_lookup2]; exact hsome, ?_⟩
    obtain ⟨v, hv⟩ := Option.isSome_iff_exists.mp hsome
    obtain ⟨k, hb, hk, hvk⟩ := hcache v hv
    exact ⟨k, hb, hk, by rw [hv, hvk]⟩
  · intro hfair i hiN
    have hrem := runSchedule_remaining T S { IsSingleton := true, FactoryOptions := [] } N i
      hiN sched (Pool.initial w0)
    have h5 := hfair i hiN
    have h0 : ((Pool.initial w0).threads i).remaining = 5 := rfl
    exact done_of_remaining_zero _ (by omega)

/-- C14 at two concurrent calls `Resolve[Greeter]("default")` whose steps alternate: both
miss the cache and both invoke the factory; the first returns the first value built, the
second the second, and the second is the one that stays cached. -/
theorem C14_concurrent_first_resolutions_witness :
    (runSchedule Greeter Default { IsSingleton := true, FactoryOptions := [] } 2
      [0, 1, 0, 1, 0, 1, 0, 1, 0, 1]
      (Pool.initial (worldWithFactory Greeter Default englishFactory))).threads 0
      = .done (.ret (.dyn English 1, none)) ∧
    (runSchedule Greeter Default { IsSingleton := true, FactoryOptions := [] } 2
      [0, 1, 0, 1, 0, 1, 0, 1, 0, 1]
      (Pool.initial (worldWithFactory Greeter Default englishFactory))).threads 1
      = .done (.ret (.dyn English 2, none)) ∧
    lookup2 (runSchedule Greeter Default { IsSingleton := true, FactoryOptions := [] } 2
      [0, 1, 0, 1, 0, 1, 0, 1, 0, 1]
      (Pool.initial (worldWithFactory Greeter Default englishFactory))).world.store.instances
      (GetType Greeter) Default = some (.dyn English 2) ∧
    (IsInstanceExist Greeter Default
      (runSchedule Greeter Default { IsSingleton := true, FactoryOptions := [] } 2
        [0, 1, 0, 1, 0, 1, 0, 1, 0, 1]
        (Pool.initial (worldWithFactory Greeter Default englishFactory))).world).1 = true :=
  ⟨rfl, rfl, rfl,
    ((C14_concurrent_first_resolutions Greeter Default englishFactory
      (worldWithFactory Greeter Default englishFactory) 2 [0, 1, 0, 1, 0, 1, 0, 1, 0, 1]
      (by decide) rfl (fun _ => ⟨rfl, rfl⟩) rfl).2.2.1
      ((C14_concurrent_first_resolutions Greeter Default englishFactory
        (worldWithFactory Greeter Default englishFactory) 2 [0, 1, 0, 1, 0, 1, 0, 1, 0, 1]
        (by decide) rfl (fun _ => ⟨rfl, rfl⟩) rfl).2.2.2 (by decide))).1⟩

end Gdic
